import Mathlib
set_option maxRecDepth 100000

/-!
Verification of the OAuth 2.1 / MCP trading gateway.

This file shallowly embeds the authorization core of the repository:
the SHA-256 / HMAC / base64url primitives used for PKCE and token
hashing, the JWT mint/verify pair (`create_access_token`,
`verify_access_token`), the token-endpoint grant handlers, the
revocation endpoint, the authentication helper `get_current_user_id`,
the FastAPI `MCPAuthMiddleware.dispatch` gate, and the Fernet-style
credential vault (`encrypt_credential` / `decrypt_credential`).
Database rows are explicit records, the database is a record of lists,
timestamps are seconds as `Nat`, and every handler is a pure function
from inputs and a database state to a result and a new state.
-/

/-- Byte strings are lists of naturals; every byte-producing function
keeps its outputs below 256. -/
abbrev Bytes := List Nat

/-- ASCII/code-point serialization of a string, modelling `str.encode`. -/
def strBytes (s : String) : Bytes := s.data.map Char.toNat

/-- Inverse of `strBytes`, modelling `bytes.decode`. -/
def bytesStr (b : Bytes) : String := String.mk (b.map Char.ofNat)

/-- Big-endian serialization of `v` into `n` bytes (truncating above `2^(8n)`). -/
def toBytesBE (n v : Nat) : Bytes :=
  (List.range n).map (fun i => v / 256 ^ (n - 1 - i) % 256)

/-- 32-bit right rotation. -/
def rotr32 (n x : Nat) : Nat := ((x >>> n) ||| (x <<< (32 - n))) % 2 ^ 32

/-- SHA-256 `Ch` on 32-bit words; `¬x` is complement against the 32-bit mask. -/
def chW (x y z : Nat) : Nat := (x &&& y) ^^^ ((x ^^^ (2 ^ 32 - 1)) &&& z)

/-- SHA-256 `Maj` on 32-bit words. -/
def majW (x y z : Nat) : Nat := (x &&& y) ^^^ (x &&& z) ^^^ (y &&& z)

/-- SHA-256 `Σ₀`. -/
def bsig0 (x : Nat) : Nat := rotr32 2 x ^^^ rotr32 13 x ^^^ rotr32 22 x

/-- SHA-256 `Σ₁`. -/
def bsig1 (x : Nat) : Nat := rotr32 6 x ^^^ rotr32 11 x ^^^ rotr32 25 x

/-- SHA-256 `σ₀`. -/
def ssig0 (x : Nat) : Nat := rotr32 7 x ^^^ rotr32 18 x ^^^ (x >>> 3)

/-- SHA-256 `σ₁`. -/
def ssig1 (x : Nat) : Nat := rotr32 17 x ^^^ rotr32 19 x ^^^ (x >>> 10)

/-- The SHA-256 round constants (FIPS 180-4 §4.2.2). -/
def shaRoundConsts : List Nat :=
  [1116352408, 1899447441, 3049323471, 3921009573, 961987163,
   1508970993, 2453635748, 2870763221, 3624381080, 310598401,
   607225278, 1426881987, 1925078388, 2162078206, 2614888103,
   3248222580, 3835390401, 4022224774, 264347078, 604807628,
   770255983, 1249150122, 1555081692, 1996064986, 2554220882,
   2821834349, 2952996808, 3210313671, 3336571891, 3584528711,
   113926993, 338241895, 666307205, 773529912, 1294757372,
   1396182291, 1695183700, 1986661051, 2177026350, 2456956037,
   2730485921, 2820302411, 3259730800, 3345764771, 3516065817,
   3600352804, 4094571909, 275423344, 430227734, 506948616,
   659060556, 883997877, 958139571, 1322822218, 1537002063,
   1747873779, 1955562222, 2024104815, 2227730452, 2361852424,
   2428436474, 2756734187, 3204031479, 3329325298]

/-- The SHA-256 initial hash state (FIPS 180-4 §5.3.3). -/
def shaInitState : List Nat :=
  [1779033703, 3144134277, 1013904242, 2773480762, 1359893119,
   2600822924, 528734635, 1541459225]

/-- SHA-256 padding: `0x80`, zeros to 56 mod 64, then the bit length
as 8 big-endian bytes. -/
def shaPad (msg : Bytes) : Bytes :=
  msg ++ [0x80] ++ List.replicate ((119 - msg.length % 64) % 64) 0
      ++ toBytesBE 8 (msg.length * 8)

/-- Group bytes into big-endian 32-bit words. -/
def bytesToWords : Bytes → List Nat
  | a :: b :: c :: d :: rest =>
      (a * 2 ^ 24 + b * 2 ^ 16 + c * 2 ^ 8 + d) :: bytesToWords rest
  | _ => []

/-- Message-schedule extension; `acc` holds the words produced so far,
most recent first. -/
def extendSchedule : Nat → List Nat → List Nat
  | 0, acc => acc
  | n + 1, acc =>
      let w := (ssig1 (acc.getD 1 0) + acc.getD 6 0
                + ssig0 (acc.getD 14 0) + acc.getD 15 0) % 2 ^ 32
      extendSchedule n (w :: acc)

/-- The 64-word message schedule of one 16-word block. -/
def msgSchedule (block : List Nat) : List Nat :=
  (extendSchedule 48 block.reverse).reverse

/-- One SHA-256 compression round per element of the constant/schedule lists. -/
def shaRounds : List Nat → List Nat →
    Nat × Nat × Nat × Nat × Nat × Nat × Nat × Nat →
    Nat × Nat × Nat × Nat × Nat × Nat × Nat × Nat
  | k :: ks, w :: ws, (a, b, c, d, e, f, g, h) =>
      let t1 := (h + bsig1 e + chW e f g + k + w) % 2 ^ 32
      let t2 := (bsig0 a + majW a b c) % 2 ^ 32
      shaRounds ks ws ((t1 + t2) % 2 ^ 32, a, b, c, (d + t1) % 2 ^ 32, e, f, g)
  | _, _, st => st

/-- Compress one 16-word block into the running state. -/
def shaCompress (h : List Nat) (block : List Nat) : List Nat :=
  let init := (h.getD 0 0, h.getD 1 0, h.getD 2 0, h.getD 3 0,
               h.getD 4 0, h.getD 5 0, h.getD 6 0, h.getD 7 0)
  let (a, b, c, d, e, f, g, hh) := shaRounds shaRoundConsts (msgSchedule block) init
  [(h.getD 0 0 + a) % 2 ^ 32, (h.getD 1 0 + b) % 2 ^ 32,
   (h.getD 2 0 + c) % 2 ^ 32, (h.getD 3 0 + d) % 2 ^ 32,
   (h.getD 4 0 + e) % 2 ^ 32, (h.getD 5 0 + f) % 2 ^ 32,
   (h.getD 6 0 + g) % 2 ^ 32, (h.getD 7 0 + hh) % 2 ^ 32]

/-- Split a list into chunks of `size` elements; `n` counts the room left in
the current chunk and `acc` holds the current chunk reversed. -/
def splitChunks (size : Nat) : List Nat → Nat → List Nat → List (List Nat)
  | [], _, acc => if acc.isEmpty then [] else [acc.reverse]
  | w :: ws, n, acc =>
      if n ≤ 1 then (w :: acc).reverse :: splitChunks size ws size []
      else splitChunks size ws (n - 1) (w :: acc)

/-- SHA-256 of a byte string, as 32 bytes (models `hashlib.sha256(...).digest()`). -/
def sha256 (msg : Bytes) : Bytes :=
  let blocks := splitChunks 16 (bytesToWords (shaPad msg)) 16 []
  ((blocks.foldl shaCompress shaInitState).map (toBytesBE 4)).flatten

/-- Lower-case hex digit. -/
def hexChar (n : Nat) : Char :=
  if n < 10 then Char.ofNat (48 + n) else Char.ofNat (87 + n)

/-- Lower-case hex rendering of a byte string. -/
def bytesToHex (bs : Bytes) : String :=
  String.mk (bs.foldr (fun b acc => hexChar (b / 16) :: hexChar (b % 16) :: acc) [])

/-- Models `hashlib.sha256(...).hexdigest()`. -/
def sha256Hex (msg : Bytes) : String := bytesToHex (sha256 msg)

/-- The URL-safe base64 alphabet (RFC 4648 §5). -/
def b64urlChar (n : Nat) : Char :=
  if n < 26 then Char.ofNat (65 + n)
  else if n < 52 then Char.ofNat (97 + (n - 26))
  else if n < 62 then Char.ofNat (48 + (n - 52))
  else if n = 62 then '-' else '_'

/-- URL-safe base64 without padding, modelling
`base64.urlsafe_b64encode(x).rstrip(b"=")`. -/
def base64urlNoPad : Bytes → String
  | [] => ""
  | [a] =>
      String.mk [b64urlChar (a / 4), b64urlChar (a % 4 * 16)]
  | [a, b] =>
      String.mk [b64urlChar (a / 4), b64urlChar (a % 4 * 16 + b / 16),
                 b64urlChar (b % 16 * 4)]
  | a :: b :: c :: rest =>
      String.mk [b64urlChar (a / 4), b64urlChar (a % 4 * 16 + b / 16),
                 b64urlChar (b % 16 * 4 + c / 64), b64urlChar (c % 64)]
        ++ base64urlNoPad rest

/-- HMAC-SHA256 (FIPS 198-1) with 64-byte block size. -/
def hmacSHA256 (key msg : Bytes) : Bytes :=
  let k0 := (if 64 < key.length then sha256 key else key)
  let kp := k0 ++ List.replicate (64 - k0.length) 0
  sha256 ((kp.map (· ^^^ 0x5c)) ++ sha256 ((kp.map (· ^^^ 0x36)) ++ msg))

/-!
## JWT model (`python-jose`, HS256) and server configuration

A JWT is a claims record together with its HMAC-SHA256 signature over a
canonical byte serialization of the claims.  `jwtDecode` models
`jose.jwt.decode(token, key, algorithms, audience, issuer)`: signature
first, then `exp`, then `aud`, then `iss`; every failure is a `JWTError`.
-/

/-- `SERVER_URL` (the `os.getenv` default). -/
def SERVER_URL : String := "http://localhost:8000"

/-- `MCP_ENDPOINT = f"{SERVER_URL}/mcp/"`. -/
def MCP_ENDPOINT : String := SERVER_URL ++ "/mcp/"

/-- `ACCESS_TOKEN_EXPIRE_MINUTES = 15`. -/
def ACCESS_TOKEN_EXPIRE_MINUTES : Nat := 15

/-- `REFRESH_TOKEN_EXPIRE_DAYS = 30`. -/
def REFRESH_TOKEN_EXPIRE_DAYS : Nat := 30

/-- The claims the server ever places in an access token:
`{sub, aud, client_id, scope, exp, iat, iss}`.  Timestamps are seconds. -/
structure JWTClaims where
  sub : String
  aud : String
  client_id : String
  scope : String
  exp : Nat
  iat : Nat
  iss : String
deriving DecidableEq, Repr

/-- A byte string prefixed by its 4-byte big-endian length. -/
def lenPrefixed (b : Bytes) : Bytes := toBytesBE 4 b.length ++ b

/-- Canonical byte serialization of a claims record (the payload the
HS256 signature covers). -/
def claimsBytes (c : JWTClaims) : Bytes :=
  lenPrefixed (strBytes c.sub) ++ lenPrefixed (strBytes c.aud)
    ++ lenPrefixed (strBytes c.client_id) ++ lenPrefixed (strBytes c.scope)
    ++ toBytesBE 8 c.exp ++ toBytesBE 8 c.iat ++ lenPrefixed (strBytes c.iss)

/-- HS256 signature of a claims record under the symmetric secret. -/
def jwtSign (key : String) (c : JWTClaims) : Bytes :=
  hmacSHA256 (strBytes key) (claimsBytes c)

/-- A (possibly forged) token: claims plus presented signature. -/
structure JWT where
  claims : JWTClaims
  sig : Bytes
deriving DecidableEq, Repr

/-- The wire bytes of a token, which `hashlib.sha256(access_token.encode())`
hashes for storage. -/
def jwtBytes (t : JWT) : Bytes := claimsBytes t.claims ++ t.sig

/-- `jose.jwt.decode` with signature, `exp`, `audience` and `issuer`
validation; any failure is a `JWTError` message. -/
def jwtDecode (token : JWT) (key : String) (audience issuer : String)
    (now : Nat) : Except String JWTClaims :=
  if token.sig ≠ jwtSign key token.claims then .error "Signature verification failed."
  else if token.claims.exp < now then .error "Signature has expired."
  else if token.claims.aud ≠ audience then .error "Invalid audience"
  else if token.claims.iss ≠ issuer then .error "Invalid issuer"
  else .ok token.claims

/-- The `data` dict passed to `create_access_token`. -/
structure TokenData where
  sub : String
  aud : String
  client_id : String
  scope : String
deriving DecidableEq, Repr

/-- `create_access_token(data, expires_delta)`: adds `exp = now + delta`,
`iat = now`, `iss = SERVER_URL` and signs with HS256. -/
def create_access_token (key : String) (now : Nat) (data : TokenData)
    (expires_delta : Nat) : JWT :=
  let claims : JWTClaims :=
    { sub := data.sub, aud := data.aud, client_id := data.client_id
      scope := data.scope, exp := now + expires_delta, iat := now
      iss := SERVER_URL }
  { claims := claims, sig := jwtSign key claims }

/-- `verify_access_token(token, expected_audience)`.  The decode failure
path raises HTTP 401; the explicit post-decode audience check raises 403
(reachable only if the decode-level audience validation passed).  The
`"sub" not in payload` check of the source cannot fire here because the
claims record always carries `sub`. -/
def verify_access_token (key : String) (now : Nat) (token : JWT)
    (expected_audience : String) : Except (Nat × String) JWTClaims :=
  match jwtDecode token key expected_audience SERVER_URL now with
  | .error e => .error (401, "Invalid token: " ++ e)
  | .ok payload =>
      if payload.aud ≠ expected_audience then
        .error (403, "Token not valid for this resource")
      else .ok payload

/-!
## Database model

One record per SQLAlchemy model, one list per table.  Primary keys:
`users.user_id`, `oauth_codes.code`, `oauth_tokens.token_hash`.
-/

/-- A `users` row (only the columns the claims touch). -/
structure UserRow where
  user_id : String
  email : String
deriving DecidableEq, Repr

/-- An `oauth_codes` row. -/
structure OAuthCodeRow where
  code : String
  user_id : String
  client_id : String
  redirect_uri : String
  code_challenge : String
  code_challenge_method : String
  resource_parameter : String
  scope : String
  expires_at : Nat
  used : Bool
deriving DecidableEq, Repr

/-- An `oauth_tokens` row. -/
structure OAuthTokenRow where
  token_hash : String
  user_id : String
  client_id : String
  resource_parameter : String
  scope : String
  expires_at : Nat
  refresh_token_hash : String
  refresh_expires_at : Nat
  revoked : Bool
deriving DecidableEq, Repr

/-- The database: one list per table the auth core touches. -/
structure DBState where
  users : List UserRow
  codes : List OAuthCodeRow
  tokens : List OAuthTokenRow
deriving DecidableEq, Repr

/-- Python truthiness of an optional form field (`None` and `""` are falsy). -/
def pyTruthy : Option String → Bool
  | none => false
  | some s => !(s == "")

/-- `db.query(OAuthToken).filter(token_hash == h, revoked == False).first()`. -/
def findLiveTokenByHash (db : DBState) (h : String) : Option OAuthTokenRow :=
  db.tokens.find? (fun t => t.token_hash == h && t.revoked == false)

/-- `db.query(User).filter(User.user_id == uid).first()`. -/
def findUser (db : DBState) (uid : String) : Option UserRow :=
  db.users.find? (fun u => u.user_id == uid)

/-- Set `revoked = True` on the token row with primary key `pk`. -/
def revokeRowByPK (db : DBState) (pk : String) : DBState :=
  { db with
    tokens := db.tokens.map fun t =>
      if t.token_hash = pk then { t with revoked := true } else t }

/-!
## `get_current_user_id` (oauth_server.py) and
`MCPAuthMiddleware.dispatch` (app.py)
-/

/-- Outcome of the authentication helper: a user id, or an HTTP error. -/
inductive AuthResult where
  | ok : String → AuthResult
  | err : Nat → String → AuthResult
deriving DecidableEq, Repr

/-- `get_current_user_id(request, db)`: header check, JWT verification
against `MCP_ENDPOINT`, database revocation lookup by the token's
SHA-256 hex, database expiry check, then user-existence check that
revokes the row as a side effect when the user is gone.  The bearer is
`none` when the `Authorization` header is missing or not `Bearer `-shaped. -/
def get_current_user_id (key : String) (now : Nat) (bearer : Option JWT)
    (db : DBState) : AuthResult × DBState :=
  match bearer with
  | none => (.err 401 "Missing or invalid Authorization header", db)
  | some token =>
    match verify_access_token key now token MCP_ENDPOINT with
    | .error (s, m) => (.err s m, db)
    | .ok payload =>
      let token_hash := sha256Hex (jwtBytes token)
      match findLiveTokenByHash db token_hash with
      | none => (.err 401 "Token revoked or invalid", db)
      | some oauth_token =>
        if oauth_token.expires_at < now then (.err 401 "Token expired", db)
        else
          match findUser db payload.sub with
          | none =>
              (.err 401 "User account no longer exists. Please authenticate again.",
               revokeRowByPK db oauth_token.token_hash)
          | some _ => (.ok payload.sub, db)

/-- Python `str.startswith`, code-point-wise. -/
def pyStartsWith (s pre : String) : Bool := pre.data.isPrefixOf s.data

deriving instance DecidableEq for Except

/-- Outcome of the FastAPI middleware on one request. -/
inductive MiddlewareResult where
  | passthrough : MiddlewareResult
  | unauthorized : Nat → String → MiddlewareResult
  | dispatch : String → MiddlewareResult
deriving DecidableEq, Repr

/-- `MCPAuthMiddleware.dispatch`: protects `/mcp*` paths except
`/mcp/health`; requires a bearer; verifies the JWT against
`MCP_ENDPOINT` (any verification failure, 401 or 403 alike, is caught
by the `except` clause and returned as a 401 `invalid_token` JSON);
checks that the user row still exists; then dispatches with the
authenticated `sub` bound into request-local context.  It consults no
`oauth_tokens` row. -/
def MCPAuthMiddleware_dispatch (key : String) (now : Nat) (path : String)
    (bearer : Option JWT) (db : DBState) : MiddlewareResult :=
  if pyStartsWith path "/mcp" then
    if path = "/mcp/health" then .passthrough
    else
      match bearer with
      | none => .unauthorized 401 "Bearer token required"
      | some token =>
        match verify_access_token key now token MCP_ENDPOINT with
        | .error (_, m) => .unauthorized 401 m
        | .ok payload =>
          match findUser db payload.sub with
          | none =>
              .unauthorized 401 "User account no longer exists. Please authenticate again."
          | some _ => .dispatch payload.sub
  else .passthrough

/-!
## `/token` grant handlers and `/revoke` (oauth_server.py)

`now` is the request time in seconds; `freshRefresh` stands for the
`secrets.token_urlsafe(32)` value drawn during the call.
-/

/-- The JSON body of a successful `/token` response. -/
structure TokenResponse where
  access_token : JWT
  token_type : String
  expires_in : Nat
  refresh_token : String
  scope : String
deriving DecidableEq, Repr

/-- `oauth_code.used = True; db.commit()` — flips `used` on the row whose
primary key is `code`. -/
def markCodeUsed (db : DBState) (code : String) : DBState :=
  { db with
    codes := db.codes.map fun c =>
      if c.code = code then { c with used := true } else c }

/-- `_handle_authorization_code_grant`: parameter presence, lookup under
`code == code AND client_id == client_id AND used == False`, code
expiry, `redirect_uri` equality, PKCE (`base64url(sha256(verifier))`
without padding against the stored challenge), resource equality; then
marks the code used, mints the access token, and inserts the
`OAuthToken` row holding both SHA-256 hex hashes. -/
def handle_authorization_code_grant (key : String) (now : Nat)
    (freshRefresh : String) (code redirect_uri code_verifier client_id
    resource : Option String) (db : DBState) :
    Except (Nat × String) (TokenResponse × DBState) :=
  if !(pyTruthy code && pyTruthy redirect_uri && pyTruthy code_verifier
       && pyTruthy client_id && pyTruthy resource) then
    .error (400, "Missing required parameters")
  else
    match db.codes.find? (fun c =>
        c.code == code.getD "" && c.client_id == client_id.getD ""
          && c.used == false) with
    | none => .error (400, "Invalid authorization code")
    | some oauth_code =>
      if oauth_code.expires_at < now then .error (400, "Authorization code expired")
      else if oauth_code.redirect_uri ≠ redirect_uri.getD "" then
        .error (400, "redirect_uri mismatch")
      else if base64urlNoPad (sha256 (strBytes (code_verifier.getD "")))
          ≠ oauth_code.code_challenge then
        .error (400, "Invalid code_verifier")
      else if resource.getD "" ≠ oauth_code.resource_parameter then
        .error (400, "resource parameter mismatch")
      else
        .ok ({ access_token := create_access_token key now
                 { sub := oauth_code.user_id, aud := resource.getD ""
                   client_id := client_id.getD ""
                   scope := oauth_code.scope } (ACCESS_TOKEN_EXPIRE_MINUTES * 60)
               token_type := "Bearer"
               expires_in := ACCESS_TOKEN_EXPIRE_MINUTES * 60
               refresh_token := freshRefresh, scope := oauth_code.scope },
             { markCodeUsed db oauth_code.code with
               tokens := (markCodeUsed db oauth_code.code).tokens ++
                 [{ token_hash := sha256Hex (jwtBytes (create_access_token key now
                      { sub := oauth_code.user_id, aud := resource.getD ""
                        client_id := client_id.getD ""
                        scope := oauth_code.scope } (ACCESS_TOKEN_EXPIRE_MINUTES * 60)))
                    user_id := oauth_code.user_id
                    client_id := client_id.getD ""
                    resource_parameter := resource.getD ""
                    scope := oauth_code.scope
                    expires_at := now + ACCESS_TOKEN_EXPIRE_MINUTES * 60
                    refresh_token_hash := sha256Hex (strBytes freshRefresh)
                    refresh_expires_at := now + REFRESH_TOKEN_EXPIRE_DAYS * 86400
                    revoked := false }] })

/-- The in-place rotation `_handle_refresh_token_grant` commits: both
hashes and both expiries of the row with primary key `pk` are replaced. -/
def rotateTokenRow (db : DBState) (pk newTokenHash newRefreshHash : String)
    (now : Nat) : DBState :=
  { db with
    tokens := db.tokens.map fun t =>
      if t.token_hash = pk then
        { t with token_hash := newTokenHash
                 refresh_token_hash := newRefreshHash
                 expires_at := now + ACCESS_TOKEN_EXPIRE_MINUTES * 60
                 refresh_expires_at := now + REFRESH_TOKEN_EXPIRE_DAYS * 86400 }
      else t }

/-- `_handle_refresh_token_grant`: parameter presence, lookup under
`refresh_token_hash == hash AND client_id == client_id AND revoked ==
False`, refresh expiry, resource equality; then mints a new access
token, rotates the refresh token, and replaces both hashes and both
expiries of the same row in one commit. -/
def handle_refresh_token_grant (key : String) (now : Nat)
    (freshRefresh : String) (refresh_token client_id resource : Option String)
    (db : DBState) : Except (Nat × String) (TokenResponse × DBState) :=
  if !(pyTruthy refresh_token && pyTruthy client_id && pyTruthy resource) then
    .error (400, "Missing required parameters")
  else
    match db.tokens.find? (fun t =>
        t.refresh_token_hash == sha256Hex (strBytes (refresh_token.getD ""))
          && t.client_id == client_id.getD "" && t.revoked == false) with
    | none => .error (400, "Invalid refresh token")
    | some oauth_token =>
      if oauth_token.refresh_expires_at < now then
        .error (400, "Refresh token expired")
      else if resource.getD "" ≠ oauth_token.resource_parameter then
        .error (400, "resource parameter mismatch")
      else
        .ok ({ access_token := create_access_token key now
                 { sub := oauth_token.user_id, aud := resource.getD ""
                   client_id := client_id.getD ""
                   scope := oauth_token.scope } (ACCESS_TOKEN_EXPIRE_MINUTES * 60)
               token_type := "Bearer"
               expires_in := ACCESS_TOKEN_EXPIRE_MINUTES * 60
               refresh_token := freshRefresh, scope := oauth_token.scope },
             rotateTokenRow db oauth_token.token_hash
               (sha256Hex (jwtBytes (create_access_token key now
                 { sub := oauth_token.user_id, aud := resource.getD ""
                   client_id := client_id.getD ""
                   scope := oauth_token.scope } (ACCESS_TOKEN_EXPIRE_MINUTES * 60))))
               (sha256Hex (strBytes freshRefresh)) now)

/-- `if client_id and oauth_token.client_id != client_id`. -/
def clientMismatch (client_id : Option String) (t : OAuthTokenRow) : Bool :=
  pyTruthy client_id && t.client_id != client_id.getD ""

/-- The second half of `revoke_token`: the refresh-token lookup, reached
only when the access-token lookup did not return. -/
def revoke_refresh_branch (token_hash : String) (hint client_id : Option String)
    (db : DBState) : Nat × DBState :=
  if hint ≠ some "access_token" then
    match db.tokens.find? (fun t => t.refresh_token_hash == token_hash) with
    | some t =>
        if clientMismatch client_id t then (200, db)
        else (200, revokeRowByPK db t.token_hash)
    | none => (200, db)
  else (200, db)

/-- `revoke_token(token, token_type_hint, client_id, db)` (RFC 7009):
hash the presented token; unless the hint says `refresh_token`, try the
access-token column first and return 200 on a hit (revoking only when
any supplied `client_id` matches); otherwise fall through to the
refresh-token column; unknown tokens still return 200. -/
def revoke_token (token : String) (hint client_id : Option String)
    (db : DBState) : Nat × DBState :=
  if hint ≠ some "refresh_token" then
    match db.tokens.find? (fun t => t.token_hash == sha256Hex (strBytes token)) with
    | some t =>
        if clientMismatch client_id t then (200, db)
        else (200, revokeRowByPK db t.token_hash)
    | none => revoke_refresh_branch (sha256Hex (strBytes token)) hint client_id db
  else revoke_refresh_branch (sha256Hex (strBytes token)) hint client_id db

/-!
## Credential vault (encryption.py over `cryptography.fernet`)

The Fernet token layout is `0x80 ‖ timestamp(8,BE) ‖ IV(16) ‖
AES128-CBC(PKCS7(msg)) ‖ HMAC-SHA256(signing key, all preceding)`.
The 128-bit block cipher is abstracted as an encrypt/decrypt pair;
everything else (CBC chaining, PKCS#7, the MAC, the header checks) is
concrete.
-/

/-- An abstract 16-byte block cipher (AES-128 in the library). -/
structure BlockCipher where
  encB : Bytes → Bytes → Bytes
  decB : Bytes → Bytes → Bytes

/-- A Fernet key: 16 signing-key bytes then 16 encryption-key bytes. -/
structure FernetKey where
  signKey : Bytes
  encKey : Bytes
deriving DecidableEq, Repr

/-- Pointwise XOR of two equally long byte strings. -/
def xorBytes (a b : Bytes) : Bytes := List.zipWith (fun x y => x ^^^ y) a b

/-- PKCS#7 padding to 16-byte blocks: `p` bytes of value `p`, `1 ≤ p ≤ 16`. -/
def pkcs7pad (msg : Bytes) : Bytes :=
  msg ++ List.replicate (16 - msg.length % 16) (16 - msg.length % 16)

/-- PKCS#7 unpadding; `none` on any malformed padding. -/
def pkcs7unpad (msg : Bytes) : Option Bytes :=
  match msg.getLast? with
  | none => none
  | some p =>
      if p = 0 || 16 < p || msg.length < p then none
      else if (msg.drop (msg.length - p)).all (· == p) then
        some (msg.take (msg.length - p))
      else none

/-- CBC encryption of a block sequence with chaining value `prev`
(initially the IV). -/
def cbcEnc (bc : BlockCipher) (k : Bytes) (prev : Bytes) :
    List (List Nat) → List (List Nat)
  | [] => []
  | b :: bs =>
      let c := bc.encB k (xorBytes prev b)
      c :: cbcEnc bc k c bs

/-- CBC decryption of a block sequence with chaining value `prev`. -/
def cbcDec (bc : BlockCipher) (k : Bytes) (prev : Bytes) :
    List (List Nat) → List (List Nat)
  | [] => []
  | c :: cs => xorBytes prev (bc.decB k c) :: cbcDec bc k c cs

/-- `Fernet.encrypt` at fixed timestamp and IV. -/
def fernetEncryptToken (bc : BlockCipher) (k : FernetKey) (timestamp : Nat)
    (iv : Bytes) (msg : Bytes) : Bytes :=
  (0x80 :: (toBytesBE 8 timestamp ++ iv
      ++ (cbcEnc bc k.encKey iv (splitChunks 16 (pkcs7pad msg) 16 [])).flatten))
    ++ hmacSHA256 k.signKey (0x80 :: (toBytesBE 8 timestamp ++ iv
      ++ (cbcEnc bc k.encKey iv (splitChunks 16 (pkcs7pad msg) 16 [])).flatten))

/-- `Fernet.decrypt` (no TTL): length check, version byte `0x80`, MAC
verification over everything before the tag, ciphertext alignment,
CBC decryption, PKCS#7 unpadding; every failure is `InvalidToken`. -/
def fernetDecryptToken (bc : BlockCipher) (k : FernetKey) (tok : Bytes) :
    Except String Bytes :=
  if tok.length < 57 then .error "InvalidToken"
  else if tok.headD 0 ≠ 0x80 then .error "InvalidToken"
  else if tok.drop (tok.length - 32)
      ≠ hmacSHA256 k.signKey (tok.take (tok.length - 32)) then
    .error "InvalidToken"
  else if ((tok.take (tok.length - 32)).drop 25).length % 16 ≠ 0
      ∨ ((tok.take (tok.length - 32)).drop 25).length = 0 then
    .error "InvalidToken"
  else
    match pkcs7unpad ((cbcDec bc k.encKey
        (((tok.take (tok.length - 32)).drop 9).take 16)
        (splitChunks 16 ((tok.take (tok.length - 32)).drop 25) 16 [])).flatten) with
    | none => .error "InvalidToken"
    | some m => .ok m

/-- `CredentialEncryption.encrypt_credential`: rejects the empty string,
otherwise encrypts the encoded credential. -/
def encrypt_credential (bc : BlockCipher) (k : FernetKey) (timestamp : Nat)
    (iv : Bytes) (credential : String) : Except String Bytes :=
  if credential = "" then .error "Cannot encrypt empty credential"
  else .ok (fernetEncryptToken bc k timestamp iv (strBytes credential))

/-- `CredentialEncryption.decrypt_credential`: rejects empty input,
otherwise Fernet-decrypts and decodes. -/
def decrypt_credential (bc : BlockCipher) (k : FernetKey) (encrypted : Bytes) :
    Except String String :=
  if encrypted = [] then .error "Cannot decrypt empty credential"
  else (fernetDecryptToken bc k encrypted).map bytesStr

/-- Outcome of `CredentialEncryption.__init__`: a service remembering the
key the `Fernet` instance was built from, or a raised `ValueError`. -/
inductive InitOutcome where
  | service : String → InitOutcome
  | valueError : String → InitOutcome
deriving DecidableEq, Repr

/-- `CredentialEncryption.__init__(encryption_key)`: fall back to the
`ENCRYPTION_KEY` environment variable, then — when both are missing or
empty — to a freshly generated development key (`generated_key` stands
for `Fernet.generate_key()`); raise `ValueError` only when the chosen
key is rejected by the `Fernet` constructor (`fernetKeyOk`). -/
def CredentialEncryption_init (encryption_key env_key : Option String)
    (generated_key : String) (fernetKeyOk : String → Bool) : InitOutcome :=
  let k1 := match encryption_key with
            | none => env_key
            | some s => some s
  let k2 := if pyTruthy k1 then k1.getD "" else generated_key
  if fernetKeyOk k2 then .service k2 else .valueError "Invalid encryption key"

/-- The database state after a token-endpoint call: the new state on
success, the unchanged state on error (an error response commits
nothing further). -/
def grantStateD (r : Except (Nat × String) (TokenResponse × DBState))
    (db : DBState) : DBState :=
  match r with
  | .ok (_, d2) => d2
  | .error _ => db

/-!
## Shared helper lemmas
-/

/-- A Boolean pairwise-distinctness check, mirroring a UNIQUE constraint. -/
def pairwiseDistinct : List String → Bool
  | [] => true
  | x :: xs => xs.all (fun y => y != x) && pairwiseDistinct xs

theorem pairwiseDistinct_cons {x : String} {xs : List String}
    (h : pairwiseDistinct (x :: xs) = true) :
    (∀ y ∈ xs, y ≠ x) ∧ pairwiseDistinct xs = true := by
  simp only [pairwiseDistinct, Bool.and_eq_true, List.all_eq_true] at h
  exact ⟨fun y hy => by simpa using h.1 y hy, h.2⟩

theorem verify_ok_payload {key : String} {now : Nat} {token : JWT}
    {aud : String} {payload : JWTClaims}
    (h : verify_access_token key now token aud = .ok payload) :
    payload = token.claims := by
  unfold verify_access_token at h
  split at h
  · exact absurd h (by simp)
  · rename_i payload2 heq
    split at h
    · exact absurd h (by simp)
    · unfold jwtDecode at heq
      split at heq
      · exact absurd heq (by simp)
      · split at heq
        · exact absurd heq (by simp)
        · split at heq
          · exact absurd heq (by simp)
          · split at heq
            · exact absurd heq (by simp)
            · simp only [Except.ok.injEq] at h heq
              rw [← h, ← heq]

/-!
## C8 — missing encryption key at startup
-/

/-- C8 counterexample: constructing the credential-vault service with no
key argument and no `ENCRYPTION_KEY` in the environment does NOT raise —
it proceeds with the freshly generated development key. -/
theorem c8_counterexample_init_without_key_succeeds :
    CredentialEncryption_init none none "generated-dev-key" (fun _ => true)
      = .service "generated-dev-key" ∧
    ∀ m, CredentialEncryption_init none none "generated-dev-key" (fun _ => true)
      ≠ .valueError m := by
  refine ⟨rfl, ?_⟩
  intro m h
  rw [show CredentialEncryption_init none none "generated-dev-key" (fun _ => true)
      = .service "generated-dev-key" from rfl] at h
  exact absurd h (by simp)

/-- C8 (amended): with no key configured (argument and environment both
absent or empty), the constructor falls back to the generated development
key and succeeds whenever that key passes `Fernet` validation; it raises
`ValueError` only when the chosen key is rejected. -/
theorem c8_missing_key_falls_back_to_generated (env_key : Option String)
    (generated_key gk2 : String) (fernetKeyOk : String → Bool)
    (henv : pyTruthy env_key = false)
    (hok : fernetKeyOk generated_key = true)
    (hbad : fernetKeyOk gk2 = false) :
    CredentialEncryption_init none env_key generated_key fernetKeyOk
      = .service generated_key ∧
    CredentialEncryption_init none env_key gk2 fernetKeyOk
      = .valueError "Invalid encryption key" := by
  constructor
  · unfold CredentialEncryption_init
    simp [henv, hok]
  · unfold CredentialEncryption_init
    simp [henv, hbad]

/-- C8 witness for the amended statement. -/
theorem c8_missing_key_falls_back_to_generated_witness :
    CredentialEncryption_init none none "gk0" (fun k => k == "gk0")
      = .service "gk0" ∧
    CredentialEncryption_init none none "badkey" (fun k => k == "gk0")
      = .valueError "Invalid encryption key" :=
  c8_missing_key_falls_back_to_generated none "gk0" "badkey" (fun k => k == "gk0")
    (by decide) (by decide) (by decide)


/-!
## C4 — mint/verify round trip
-/

/-- C4 counterexample: a token minted for `MCP_ENDPOINT` and verified
against a different expected audience is rejected by the `jose` decode
step, which the `except` clause turns into HTTP 401 — not the 403 of the
explicit post-decode check, which is unreachable for a mismatch. -/
theorem c4_counterexample_audience_mismatch_is_401 :
    verify_access_token "jwtsecret" 1000
      (create_access_token "jwtsecret" 1000
        { sub := "u1", aud := MCP_ENDPOINT, client_id := "mcp-c1", scope := "trading" } 900)
      "https://other/mcp/"
      = .error (401, "Invalid token: Invalid audience") ∧
    ∀ m, verify_access_token "jwtsecret" 1000
      (create_access_token "jwtsecret" 1000
        { sub := "u1", aud := MCP_ENDPOINT, client_id := "mcp-c1", scope := "trading" } 900)
      "https://other/mcp/"
      ≠ .error (403, m) := by
  have h1 : verify_access_token "jwtsecret" 1000
      (create_access_token "jwtsecret" 1000
        { sub := "u1", aud := MCP_ENDPOINT, client_id := "mcp-c1", scope := "trading" } 900)
      "https://other/mcp/"
      = .error (401, "Invalid token: Invalid audience") := by decide
  refine ⟨h1, ?_⟩
  intro m h
  rw [h1] at h
  exact absurd h (by simp)

/-- C4 (amended): decoding a minted token returns the minted `sub` and
`aud`; verifying with the matching audience before expiry succeeds; and
verifying with any different audience fails with HTTP 401 (`jose`
raises `Invalid audience` inside the decode, so the explicit 403 branch
never fires), not 403. -/
theorem c4_mint_verify (key : String) (now now2 : Nat) (data : TokenData)
    (delta : Nat) (aud2 : String)
    (hlive : now2 ≤ now + delta) (haud : aud2 ≠ data.aud) :
    (create_access_token key now data delta).claims.sub = data.sub ∧
    (create_access_token key now data delta).claims.aud = data.aud ∧
    verify_access_token key now2 (create_access_token key now data delta) data.aud
      = .ok (create_access_token key now data delta).claims ∧
    verify_access_token key now2 (create_access_token key now data delta) aud2
      = .error (401, "Invalid token: Invalid audience") := by
  have hexp : ¬ (now + delta < now2) := by omega
  refine ⟨rfl, rfl, ?_, ?_⟩
  · unfold verify_access_token jwtDecode create_access_token
    simp [hexp]
  · unfold verify_access_token jwtDecode create_access_token
    simp [hexp, Ne.symm haud]

/-- C4 witness. -/
theorem c4_mint_verify_witness :
    (create_access_token "k0" 50 { sub := "u9", aud := "https://srv/mcp/", client_id := "c9", scope := "trading" } 900).claims.sub = "u9" ∧
    (create_access_token "k0" 50 { sub := "u9", aud := "https://srv/mcp/", client_id := "c9", scope := "trading" } 900).claims.aud = "https://srv/mcp/" ∧
    verify_access_token "k0" 950 (create_access_token "k0" 50 { sub := "u9", aud := "https://srv/mcp/", client_id := "c9", scope := "trading" } 900) "https://srv/mcp/"
      = .ok (create_access_token "k0" 50 { sub := "u9", aud := "https://srv/mcp/", client_id := "c9", scope := "trading" } 900).claims ∧
    verify_access_token "k0" 950 (create_access_token "k0" 50 { sub := "u9", aud := "https://srv/mcp/", client_id := "c9", scope := "trading" } 900) "https://evil/mcp/"
      = .error (401, "Invalid token: Invalid audience") :=
  c4_mint_verify "k0" 50 950
    { sub := "u9", aud := "https://srv/mcp/", client_id := "c9", scope := "trading" }
    900 "https://evil/mcp/" (by omega) (by decide)

/-!
## C1 — the deployed middleware does not consult the revocation flag
-/

/-- C1: a syntactically valid, correctly signed, unexpired bearer token
whose stored row is revoked is nevertheless dispatched by
`MCPAuthMiddleware.dispatch` (which checks signature, audience, expiry
and user existence but never queries `oauth_tokens`), while the
repository's own `get_current_user_id` rejects the very same request on
its revoked-token path. -/
theorem c1_middleware_dispatches_revoked_token :
    MCPAuthMiddleware_dispatch "jwtsecret" 1500 "/mcp"
      (some (create_access_token "jwtsecret" 1000
        { sub := "u1", aud := MCP_ENDPOINT, client_id := "mcp-c1", scope := "trading" } 900))
      { users := [{ user_id := "u1", email := "u@x.com" }]
        codes := []
        tokens := [{ token_hash := sha256Hex (jwtBytes (create_access_token "jwtsecret" 1000
                       { sub := "u1", aud := MCP_ENDPOINT, client_id := "mcp-c1", scope := "trading" } 900))
                     user_id := "u1", client_id := "mcp-c1"
                     resource_parameter := MCP_ENDPOINT, scope := "trading"
                     expires_at := 1900, refresh_token_hash := "rh0"
                     refresh_expires_at := 500000, revoked := true }] }
      = .dispatch "u1" ∧
    (get_current_user_id "jwtsecret" 1500
      (some (create_access_token "jwtsecret" 1000
        { sub := "u1", aud := MCP_ENDPOINT, client_id := "mcp-c1", scope := "trading" } 900))
      { users := [{ user_id := "u1", email := "u@x.com" }]
        codes := []
        tokens := [{ token_hash := sha256Hex (jwtBytes (create_access_token "jwtsecret" 1000
                       { sub := "u1", aud := MCP_ENDPOINT, client_id := "mcp-c1", scope := "trading" } 900))
                     user_id := "u1", client_id := "mcp-c1"
                     resource_parameter := MCP_ENDPOINT, scope := "trading"
                     expires_at := 1900, refresh_token_hash := "rh0"
                     refresh_expires_at := 500000, revoked := true }] }).fst
      = .err 401 "Token revoked or invalid" :=
  ⟨by decide, by decide⟩

/-!
## C7 — deleted user: 401, auto-revocation, and the revoked path
-/

theorem findLive_after_revoke (db : DBState) (h : String) :
    findLiveTokenByHash (revokeRowByPK db h) h = none := by
  refine List.find?_eq_none.mpr ?_
  intro t ht
  simp only [revokeRowByPK, List.mem_map] at ht
  obtain ⟨t0, _, rfl⟩ := ht
  by_cases hc : t0.token_hash = h
  · simp [hc]
  · simp [hc]

/-- C7: a correctly signed, unexpired, non-revoked token whose subject no
longer has a `users` row is rejected by `get_current_user_id` with 401
and the row is revoked as a side effect; presenting the same token again
hits the revoked-token path (`"Token revoked or invalid"`), not the
missing-user path. -/
theorem c7_missing_user_revoked_then_revoked_path (key : String) (now : Nat)
    (tok : JWT) (db : DBState) (row : OAuthTokenRow) (payload : JWTClaims)
    (hver : verify_access_token key now tok MCP_ENDPOINT = .ok payload)
    (hfind : findLiveTokenByHash db (sha256Hex (jwtBytes tok)) = some row)
    (hexp : ¬ row.expires_at < now)
    (huser : findUser db payload.sub = none) :
    get_current_user_id key now (some tok) db =
      (.err 401 "User account no longer exists. Please authenticate again.",
       revokeRowByPK db row.token_hash) ∧
    ((revokeRowByPK db row.token_hash).tokens.all fun t =>
        t.token_hash != row.token_hash || t.revoked) = true ∧
    (get_current_user_id key now (some tok) (revokeRowByPK db row.token_hash)).fst
      = .err 401 "Token revoked or invalid" := by
  have hhash : row.token_hash = sha256Hex (jwtBytes tok) := by
    have hp := List.find?_some hfind
    simp only [Bool.and_eq_true, beq_iff_eq] at hp
    exact hp.1
  refine ⟨?_, ?_, ?_⟩
  · unfold get_current_user_id
    simp only [hver, hfind, if_neg hexp, huser]
  · refine List.all_eq_true.mpr ?_
    intro t' ht'
    simp only [revokeRowByPK, List.mem_map] at ht'
    obtain ⟨t, _, rfl⟩ := ht'
    by_cases hc : t.token_hash = row.token_hash
    · simp [hc]
    · simp [hc]
  · have hnone := findLive_after_revoke db (sha256Hex (jwtBytes tok))
    rw [hhash]
    unfold get_current_user_id
    simp only [hver, hnone]

/-- C7 witness. -/
theorem c7_missing_user_revoked_then_revoked_path_witness :
    get_current_user_id "k7" 100
      (some (create_access_token "k7" 100
        { sub := "ghost", aud := MCP_ENDPOINT, client_id := "c7", scope := "trading" } 900))
      { users := []
        codes := []
        tokens := [{ token_hash := sha256Hex (jwtBytes (create_access_token "k7" 100
                       { sub := "ghost", aud := MCP_ENDPOINT, client_id := "c7", scope := "trading" } 900))
                     user_id := "ghost", client_id := "c7"
                     resource_parameter := MCP_ENDPOINT, scope := "trading"
                     expires_at := 1000, refresh_token_hash := "rh7"
                     refresh_expires_at := 2000, revoked := false }] } =
      (.err 401 "User account no longer exists. Please authenticate again.",
       revokeRowByPK
         { users := []
           codes := []
           tokens := [{ token_hash := sha256Hex (jwtBytes (create_access_token "k7" 100
                          { sub := "ghost", aud := MCP_ENDPOINT, client_id := "c7", scope := "trading" } 900))
                        user_id := "ghost", client_id := "c7"
                        resource_parameter := MCP_ENDPOINT, scope := "trading"
                        expires_at := 1000, refresh_token_hash := "rh7"
                        refresh_expires_at := 2000, revoked := false }] }
         (sha256Hex (jwtBytes (create_access_token "k7" 100
            { sub := "ghost", aud := MCP_ENDPOINT, client_id := "c7", scope := "trading" } 900)))) ∧
    ((revokeRowByPK
        { users := []
          codes := []
          tokens := [{ token_hash := sha256Hex (jwtBytes (create_access_token "k7" 100
                         { sub := "ghost", aud := MCP_ENDPOINT, client_id := "c7", scope := "trading" } 900))
                       user_id := "ghost", client_id := "c7"
                       resource_parameter := MCP_ENDPOINT, scope := "trading"
                       expires_at := 1000, refresh_token_hash := "rh7"
                       refresh_expires_at := 2000, revoked := false }] }
        (sha256Hex (jwtBytes (create_access_token "k7" 100
           { sub := "ghost", aud := MCP_ENDPOINT, client_id := "c7", scope := "trading" } 900)))).tokens.all
      fun t => t.token_hash != sha256Hex (jwtBytes (create_access_token "k7" 100
        { sub := "ghost", aud := MCP_ENDPOINT, client_id := "c7", scope := "trading" } 900)) || t.revoked) = true ∧
    (get_current_user_id "k7" 100
      (some (create_access_token "k7" 100
        { sub := "ghost", aud := MCP_ENDPOINT, client_id := "c7", scope := "trading" } 900))
      (revokeRowByPK
        { users := []
          codes := []
          tokens := [{ token_hash := sha256Hex (jwtBytes (create_access_token "k7" 100
                         { sub := "ghost", aud := MCP_ENDPOINT, client_id := "c7", scope := "trading" } 900))
                       user_id := "ghost", client_id := "c7"
                       resource_parameter := MCP_ENDPOINT, scope := "trading"
                       expires_at := 1000, refresh_token_hash := "rh7"
                       refresh_expires_at := 2000, revoked := false }] }
        (sha256Hex (jwtBytes (create_access_token "k7" 100
           { sub := "ghost", aud := MCP_ENDPOINT, client_id := "c7", scope := "trading" } 900))))).fst
      = .err 401 "Token revoked or invalid" :=
  c7_missing_user_revoked_then_revoked_path "k7" 100
    (create_access_token "k7" 100
      { sub := "ghost", aud := MCP_ENDPOINT, client_id := "c7", scope := "trading" } 900)
    { users := []
      codes := []
      tokens := [{ token_hash := sha256Hex (jwtBytes (create_access_token "k7" 100
                     { sub := "ghost", aud := MCP_ENDPOINT, client_id := "c7", scope := "trading" } 900))
                   user_id := "ghost", client_id := "c7"
                   resource_parameter := MCP_ENDPOINT, scope := "trading"
                   expires_at := 1000, refresh_token_hash := "rh7"
                   refresh_expires_at := 2000, revoked := false }] }
    { token_hash := sha256Hex (jwtBytes (create_access_token "k7" 100
        { sub := "ghost", aud := MCP_ENDPOINT, client_id := "c7", scope := "trading" } 900))
      user_id := "ghost", client_id := "c7"
      resource_parameter := MCP_ENDPOINT, scope := "trading"
      expires_at := 1000, refresh_token_hash := "rh7"
      refresh_expires_at := 2000, revoked := false }
    (create_access_token "k7" 100
      { sub := "ghost", aud := MCP_ENDPOINT, client_id := "c7", scope := "trading" } 900).claims
    (by decide) (by decide) (by decide) (by decide)


/-!
## C6 — `/revoke` semantics
-/

theorem tokenRow_set_revoked_self {t : OAuthTokenRow} (h : t.revoked = true) :
    { t with revoked := true } = t := by
  obtain ⟨a, b, c, d, e, f, g, hh, r⟩ := t
  simp only at h
  rw [h]

theorem revokeRowByPK_id {db : DBState} {pk : String}
    (h : ∀ t ∈ db.tokens, t.token_hash = pk → t.revoked = true) :
    revokeRowByPK db pk = db := by
  obtain ⟨us, cs, ts⟩ := db
  unfold revokeRowByPK
  simp only [DBState.mk.injEq, true_and]
  have hmap : ∀ t ∈ ts,
      (if t.token_hash = pk then { t with revoked := true } else t) = id t := by
    intro t ht
    by_cases hc : t.token_hash = pk
    · simp only [if_pos hc, id]
      exact tokenRow_set_revoked_self (h t ht hc)
    · simp [hc]
  rw [List.map_congr_left hmap, List.map_id]

theorem pairwiseDistinct_inj {f : OAuthTokenRow → String} {l : List OAuthTokenRow}
    (h : pairwiseDistinct (l.map f) = true) :
    ∀ a ∈ l, ∀ b ∈ l, f a = f b → a = b := by
  induction l with
  | nil => intro a ha; exact absurd ha (by simp)
  | cons x xs ih =>
    simp only [List.map_cons] at h
    obtain ⟨hx, hrest⟩ := pairwiseDistinct_cons h
    intro a ha b hb hfab
    rcases List.mem_cons.mp ha with rfl | ha'
    · rcases List.mem_cons.mp hb with rfl | hb'
      · rfl
      · exact absurd hfab.symm (hx (f b) (List.mem_map_of_mem f hb'))
    · rcases List.mem_cons.mp hb with rfl | hb'
      · exact absurd hfab (hx (f a) (List.mem_map_of_mem f ha'))
      · exact ih hrest a ha' b hb' hfab

/-- C6: `/revoke` returns HTTP 200 for every input, including unknown
tokens; a supplied but mismatching `client_id` yields 200 with the state
untouched, both when the presented token matches a row by `token_hash`
and when it matches one by `refresh_token_hash` (the refresh branch runs
when the hint says so or when the access-column lookup found nothing);
and revoking a token all of whose matching rows are already revoked
yields 200 and changes nothing (given the primary-key uniqueness of
`token_hash`). -/
theorem c6_revoke_always_200 (token : String) (hint client_id : Option String)
    (db : DBState) :
    (revoke_token token hint client_id db).fst = 200 ∧
    ((match db.tokens.find? (fun t => t.token_hash == sha256Hex (strBytes token)) with
      | some t => clientMismatch client_id t
      | none => false) = true →
      hint ≠ some "refresh_token" →
      (revoke_token token hint client_id db).snd = db) ∧
    ((match db.tokens.find? (fun t => t.refresh_token_hash == sha256Hex (strBytes token)) with
      | some t => clientMismatch client_id t
      | none => false) = true →
      (hint = some "refresh_token" ∨
        db.tokens.find? (fun t => t.token_hash == sha256Hex (strBytes token)) = none) →
      hint ≠ some "access_token" →
      (revoke_token token hint client_id db).snd = db) ∧
    ((db.tokens.all fun t =>
        (t.token_hash != sha256Hex (strBytes token)
          && t.refresh_token_hash != sha256Hex (strBytes token)) || t.revoked) = true →
      pairwiseDistinct (db.tokens.map (fun t => t.token_hash)) = true →
      (revoke_token token hint client_id db).snd = db) := by
  have h200r : ∀ th hn ci d, (revoke_refresh_branch th hn ci d).fst = 200 := by
    intro th hn ci d
    unfold revoke_refresh_branch
    split
    · split
      · split <;> rfl
      · rfl
    · rfl
  refine ⟨?_, ?_, ?_, ?_⟩
  · unfold revoke_token
    split
    · split
      · split <;> rfl
      · exact h200r _ _ _ _
    · exact h200r _ _ _ _
  · intro hcm hhint
    unfold revoke_token
    rw [if_pos hhint]
    cases hf : db.tokens.find? (fun t => t.token_hash == sha256Hex (strBytes token)) with
    | none => rw [hf] at hcm; exact absurd hcm (by simp)
    | some t =>
        rw [hf] at hcm
        simp only [] at hcm
        show (if clientMismatch client_id t = true then (200, db)
              else (200, revokeRowByPK db t.token_hash)).snd = db
        rw [if_pos hcm]
  · intro hcm hbranch hha
    have hrefmm : (revoke_refresh_branch (sha256Hex (strBytes token))
        hint client_id db).snd = db := by
      unfold revoke_refresh_branch
      rw [if_pos hha]
      cases hf : db.tokens.find?
          (fun t => t.refresh_token_hash == sha256Hex (strBytes token)) with
      | none => rw [hf] at hcm
      | some t =>
          rw [hf] at hcm
          simp only [] at hcm
          show (if clientMismatch client_id t = true then (200, db)
                else (200, revokeRowByPK db t.token_hash)).snd = db
          rw [if_pos hcm]
    unfold revoke_token
    rcases hbranch with hhint | hnone
    · rw [if_neg (not_not_intro hhint)]
      exact hrefmm
    · by_cases hh : hint ≠ some "refresh_token"
      · rw [if_pos hh, hnone]
        exact hrefmm
      · rw [if_neg hh]
        exact hrefmm
  · intro hall huniq
    have hgetrev : ∀ t ∈ db.tokens,
        t.token_hash = sha256Hex (strBytes token) ∨
        t.refresh_token_hash = sha256Hex (strBytes token) → t.revoked = true := by
      intro t ht hor
      have hh := List.all_eq_true.mp hall t ht
      simp only [Bool.or_eq_true, Bool.and_eq_true, bne_iff_ne, ne_eq] at hh
      rcases hh with ⟨h1, h2⟩ | hrev
      · rcases hor with h | h
        · exact absurd h h1
        · exact absurd h h2
      · exact hrev
    have hrevAccess : ∀ t, db.tokens.find?
        (fun t => t.token_hash == sha256Hex (strBytes token)) = some t →
        revokeRowByPK db t.token_hash = db := by
      intro t hf
      have hth : t.token_hash = sha256Hex (strBytes token) := by
        have := List.find?_some hf
        simpa using this
      refine revokeRowByPK_id ?_
      intro t' ht' hsame
      exact hgetrev t' ht' (Or.inl (hsame.trans hth))
    have hrevRefresh : ∀ t, db.tokens.find?
        (fun t => t.refresh_token_hash == sha256Hex (strBytes token)) = some t →
        revokeRowByPK db t.token_hash = db := by
      intro t hf
      have hth : t.refresh_token_hash = sha256Hex (strBytes token) := by
        have := List.find?_some hf
        simpa using this
      have htmem := List.mem_of_find?_eq_some hf
      refine revokeRowByPK_id ?_
      intro t' ht' hsame
      have ht'eq : t' = t := pairwiseDistinct_inj huniq t' ht' t htmem hsame
      rw [ht'eq]
      exact hgetrev t htmem (Or.inr hth)
    have hrefresh : (revoke_refresh_branch (sha256Hex (strBytes token))
        hint client_id db).snd = db := by
      unfold revoke_refresh_branch
      split
      · cases hf : db.tokens.find?
            (fun t => t.refresh_token_hash == sha256Hex (strBytes token)) with
        | none => rfl
        | some t =>
            show (if clientMismatch client_id t = true then (200, db)
                  else (200, revokeRowByPK db t.token_hash)).snd = db
            by_cases hcm : clientMismatch client_id t = true
            · rw [if_pos hcm]
            · rw [if_neg hcm]
              exact hrevRefresh t hf
      · rfl
    unfold revoke_token
    split
    · cases hf : db.tokens.find?
          (fun t => t.token_hash == sha256Hex (strBytes token)) with
      | none => exact hrefresh
      | some t =>
          show (if clientMismatch client_id t = true then (200, db)
                else (200, revokeRowByPK db t.token_hash)).snd = db
          by_cases hcm : clientMismatch client_id t = true
          · rw [if_pos hcm]
          · rw [if_neg hcm]
            exact hrevAccess t hf
    · exact hrefresh

/-- C6 witness: an already-revoked row reached via the access-token
column, a non-revoked row reached via the refresh-token column with a
mismatching client id, and the already-revoked case — all return 200
and leave the state untouched. -/
theorem c6_revoke_always_200_witness :
    (let db : DBState :=
      { users := [], codes := [],
        tokens := [{ token_hash := sha256Hex (strBytes "tok6"),
                     user_id := "u6", client_id := "c6",
                     resource_parameter := MCP_ENDPOINT, scope := "trading",
                     expires_at := 1000, refresh_token_hash := "rh6",
                     refresh_expires_at := 2000, revoked := true }] }
     let db2 : DBState :=
      { users := [], codes := [],
        tokens := [{ token_hash := "th-other6",
                     user_id := "u6", client_id := "c6",
                     resource_parameter := MCP_ENDPOINT, scope := "trading",
                     expires_at := 1000,
                     refresh_token_hash := sha256Hex (strBytes "rtok6"),
                     refresh_expires_at := 2000, revoked := false }] }
     (revoke_token "tok6" none (some "other-client") db).fst = 200 ∧
     (revoke_token "tok6" none (some "other-client") db).snd = db ∧
     (revoke_token "rtok6" none (some "other-client") db2).snd = db2 ∧
     (revoke_token "tok6" none none db).snd = db) :=
  ⟨(c6_revoke_always_200 "tok6" none (some "other-client")
      { users := [], codes := [],
        tokens := [{ token_hash := sha256Hex (strBytes "tok6"),
                     user_id := "u6", client_id := "c6",
                     resource_parameter := MCP_ENDPOINT, scope := "trading",
                     expires_at := 1000, refresh_token_hash := "rh6",
                     refresh_expires_at := 2000, revoked := true }] }).1,
   (c6_revoke_always_200 "tok6" none (some "other-client")
      { users := [], codes := [],
        tokens := [{ token_hash := sha256Hex (strBytes "tok6"),
                     user_id := "u6", client_id := "c6",
                     resource_parameter := MCP_ENDPOINT, scope := "trading",
                     expires_at := 1000, refresh_token_hash := "rh6",
                     refresh_expires_at := 2000, revoked := true }] }).2.1
     (by decide) (by decide),
   (c6_revoke_always_200 "rtok6" none (some "other-client")
      { users := [], codes := [],
        tokens := [{ token_hash := "th-other6",
                     user_id := "u6", client_id := "c6",
                     resource_parameter := MCP_ENDPOINT, scope := "trading",
                     expires_at := 1000,
                     refresh_token_hash := sha256Hex (strBytes "rtok6"),
                     refresh_expires_at := 2000, revoked := false }] }).2.2.1
     (by decide) (by decide) (by decide),
   (c6_revoke_always_200 "tok6" none none
      { users := [], codes := [],
        tokens := [{ token_hash := sha256Hex (strBytes "tok6"),
                     user_id := "u6", client_id := "c6",
                     resource_parameter := MCP_ENDPOINT, scope := "trading",
                     expires_at := 1000, refresh_token_hash := "rh6",
                     refresh_expires_at := 2000, revoked := true }] }).2.2.2
     (by decide) (by decide)⟩

/-!
## C2 — authorization codes are single-use
-/

/-- C2: once an authorization-code exchange has succeeded, the admitting
lookup (`used == False`) can never match that code again: the committed
state has `used = true` on every row with that code (the check and the
false-to-true transition happen in the same atomic step of the model),
and every later exchange presenting the same code is rejected with 400
(`Invalid authorization code`, surfaced as `invalid_grant`) and issues
no token. -/
theorem c2_code_single_use (key : String) (now now2 : Nat) (fresh fresh2 : String)
    (code rd cv cl rs rd2 cv2 cl2 rs2 : Option String) (db : DBState)
    (hsucc : (handle_authorization_code_grant key now fresh code rd cv cl rs db).isOk
      = true)
    (ht1 : pyTruthy rd2 = true) (ht2 : pyTruthy cv2 = true)
    (ht3 : pyTruthy cl2 = true) (ht4 : pyTruthy rs2 = true) :
    ((grantStateD (handle_authorization_code_grant key now fresh code rd cv cl rs db)
        db).codes.all fun c => c.code != code.getD "" || c.used) = true ∧
    handle_authorization_code_grant key now2 fresh2 code rd2 cv2 cl2 rs2
      (grantStateD (handle_authorization_code_grant key now fresh code rd cv cl rs db) db)
      = .error (400, "Invalid authorization code") := by
  cases hres : handle_authorization_code_grant key now fresh code rd cv cl rs db with
  | error e =>
      rw [hres] at hsucc
      exact absurd hsucc (by simp [Except.isOk, Except.toBool])
  | ok val =>
      obtain ⟨resp, db2⟩ := val
      simp only [grantStateD]
      unfold handle_authorization_code_grant at hres
      split at hres
      · exact absurd hres (by simp)
      · rename_i hguard
        split at hres
        · exact absurd hres (by simp)
        · rename_i oc hfind
          split at hres
          · exact absurd hres (by simp)
          · split at hres
            · exact absurd hres (by simp)
            · split at hres
              · exact absurd hres (by simp)
              · split at hres
                · exact absurd hres (by simp)
                · simp only [Except.ok.injEq, Prod.mk.injEq] at hres
                  obtain ⟨-, hdb2⟩ := hres
                  have hoc : oc.code = code.getD "" := by
                    have := List.find?_some hfind
                    simp only [Bool.and_eq_true, beq_iff_eq] at this
                    exact this.1.1
                  have hcodes : db2.codes = (markCodeUsed db oc.code).codes := by
                    rw [← hdb2]
                  have htruthy : pyTruthy code = true := by
                    simp only [Bool.not_eq_true', Bool.and_eq_true] at hguard
                    simp only [Bool.not_eq_false, Bool.and_eq_true] at hguard
                    exact hguard.1.1.1.1
                  have hused : ∀ c ∈ db2.codes, c.code = code.getD "" → c.used = true := by
                    intro c hc hcc
                    rw [hcodes] at hc
                    simp only [markCodeUsed, List.mem_map] at hc
                    obtain ⟨t, _, rfl⟩ := hc
                    by_cases hteq : t.code = oc.code
                    · simp [hteq]
                    · rw [if_neg hteq] at hcc ⊢
                      exact absurd (hcc.trans hoc.symm) hteq
                  constructor
                  · refine List.all_eq_true.mpr ?_
                    intro c hc
                    by_cases hcc : c.code = code.getD ""
                    · simp [hused c hc hcc]
                    · simp [hcc]
                  · unfold handle_authorization_code_grant
                    rw [if_neg (by simp [htruthy, ht1, ht2, ht3, ht4])]
                    have hnone : db2.codes.find? (fun c =>
                        c.code == code.getD "" && c.client_id == cl2.getD ""
                          && c.used == false) = none := by
                      refine List.find?_eq_none.mpr ?_
                      intro c hc
                      by_cases hcc : c.code = code.getD ""
                      · simp [hused c hc hcc]
                      · simp [hcc]
                    rw [hnone]

/-- C2 witness: a concrete happy-path exchange followed by a replay. -/
theorem c2_code_single_use_witness :
    (let db0 : DBState :=
      { users := [{ user_id := "u2", email := "u2@x.com" }],
        codes := [{ code := "code1", user_id := "u2", client_id := "mcp-c2",
                    redirect_uri := "http://localhost:3000/cb",
                    code_challenge := base64urlNoPad (sha256 (strBytes "verifier-xyz")),
                    code_challenge_method := "S256",
                    resource_parameter := MCP_ENDPOINT, scope := "trading",
                    expires_at := 1500, used := false }],
        tokens := [] }
     ((grantStateD (handle_authorization_code_grant "k2" 1000 "refresh-1" (some "code1")
         (some "http://localhost:3000/cb") (some "verifier-xyz") (some "mcp-c2")
         (some MCP_ENDPOINT) db0) db0).codes.all fun c =>
           c.code != (some "code1").getD "" || c.used) = true ∧
     handle_authorization_code_grant "k2" 1200 "refresh-2" (some "code1")
       (some "http://localhost:3000/cb") (some "verifier-xyz") (some "mcp-c2")
       (some MCP_ENDPOINT)
       (grantStateD (handle_authorization_code_grant "k2" 1000 "refresh-1" (some "code1")
         (some "http://localhost:3000/cb") (some "verifier-xyz") (some "mcp-c2")
         (some MCP_ENDPOINT) db0) db0)
       = .error (400, "Invalid authorization code")) :=
  c2_code_single_use "k2" 1000 1200 "refresh-1" "refresh-2"
    (some "code1") (some "http://localhost:3000/cb") (some "verifier-xyz")
    (some "mcp-c2") (some MCP_ENDPOINT)
    (some "http://localhost:3000/cb") (some "verifier-xyz") (some "mcp-c2")
    (some MCP_ENDPOINT)
    { users := [{ user_id := "u2", email := "u2@x.com" }],
      codes := [{ code := "code1", user_id := "u2", client_id := "mcp-c2",
                  redirect_uri := "http://localhost:3000/cb",
                  code_challenge := base64urlNoPad (sha256 (strBytes "verifier-xyz")),
                  code_challenge_method := "S256",
                  resource_parameter := MCP_ENDPOINT, scope := "trading",
                  expires_at := 1500, used := false }],
      tokens := [] }
    (by decide) (by decide) (by decide) (by decide) (by decide)

/-!
## C3 — PKCE acceptance is exactly challenge equality
-/

/-- C3: with the code found unused, unexpired, the redirect URI and the
resource matching, the exchange accepts exactly when the unpadded
URL-safe base64 of SHA-256 of the presented verifier equals the stored
challenge, and any other verifier is rejected with 400
(`Invalid code_verifier`). -/
theorem c3_pkce_exact (key : String) (now : Nat) (fresh : String)
    (code rd cv cl rs : Option String) (db : DBState) (oc : OAuthCodeRow)
    (ht0 : pyTruthy code = true) (ht1 : pyTruthy rd = true)
    (ht2 : pyTruthy cv = true) (ht3 : pyTruthy cl = true)
    (ht4 : pyTruthy rs = true)
    (hfind : db.codes.find? (fun c =>
        c.code == code.getD "" && c.client_id == cl.getD ""
          && c.used == false) = some oc)
    (hexp : ¬ oc.expires_at < now)
    (hrd : oc.redirect_uri = rd.getD "")
    (hrs : rs.getD "" = oc.resource_parameter) :
    (base64urlNoPad (sha256 (strBytes (cv.getD ""))) = oc.code_challenge →
      (handle_authorization_code_grant key now fresh code rd cv cl rs db).isOk
        = true) ∧
    (base64urlNoPad (sha256 (strBytes (cv.getD ""))) ≠ oc.code_challenge →
      handle_authorization_code_grant key now fresh code rd cv cl rs db
        = .error (400, "Invalid code_verifier")) := by
  constructor
  · intro hmatch
    unfold handle_authorization_code_grant
    rw [if_neg (by simp [ht0, ht1, ht2, ht3, ht4]), hfind]
    simp only []
    rw [if_neg hexp, if_neg (not_not_intro hrd),
        if_neg (not_not_intro hmatch), if_neg (not_not_intro hrs)]
    rfl
  · intro hmismatch
    unfold handle_authorization_code_grant
    rw [if_neg (by simp [ht0, ht1, ht2, ht3, ht4]), hfind]
    simp only []
    rw [if_neg hexp, if_neg (not_not_intro hrd), if_pos hmismatch]

/-- C3 witness: the stored challenge is the hash of `verifier-xyz`; that
verifier is accepted and `wrong-verifier` is rejected with 400. -/
theorem c3_pkce_exact_witness :
    (let db0 : DBState :=
      { users := [{ user_id := "u3", email := "u3@x.com" }],
        codes := [{ code := "code3", user_id := "u3", client_id := "mcp-c3",
                    redirect_uri := "http://localhost:3000/cb",
                    code_challenge := base64urlNoPad (sha256 (strBytes "verifier-xyz")),
                    code_challenge_method := "S256",
                    resource_parameter := MCP_ENDPOINT, scope := "trading",
                    expires_at := 1500, used := false }],
        tokens := [] }
     (handle_authorization_code_grant "k3" 1000 "r3" (some "code3")
       (some "http://localhost:3000/cb") (some "verifier-xyz") (some "mcp-c3")
       (some MCP_ENDPOINT) db0).isOk = true ∧
     handle_authorization_code_grant "k3" 1000 "r3" (some "code3")
       (some "http://localhost:3000/cb") (some "wrong-verifier") (some "mcp-c3")
       (some MCP_ENDPOINT) db0
       = .error (400, "Invalid code_verifier")) :=
  ⟨(c3_pkce_exact "k3" 1000 "r3" (some "code3") (some "http://localhost:3000/cb")
      (some "verifier-xyz") (some "mcp-c3") (some MCP_ENDPOINT)
      { users := [{ user_id := "u3", email := "u3@x.com" }],
        codes := [{ code := "code3", user_id := "u3", client_id := "mcp-c3",
                    redirect_uri := "http://localhost:3000/cb",
                    code_challenge := base64urlNoPad (sha256 (strBytes "verifier-xyz")),
                    code_challenge_method := "S256",
                    resource_parameter := MCP_ENDPOINT, scope := "trading",
                    expires_at := 1500, used := false }],
        tokens := [] }
      { code := "code3", user_id := "u3", client_id := "mcp-c3",
        redirect_uri := "http://localhost:3000/cb",
        code_challenge := base64urlNoPad (sha256 (strBytes "verifier-xyz")),
        code_challenge_method := "S256",
        resource_parameter := MCP_ENDPOINT, scope := "trading",
        expires_at := 1500, used := false }
      (by decide) (by decide) (by decide) (by decide) (by decide)
      (by decide) (by decide) (by decide) (by decide)).1 (by decide),
   (c3_pkce_exact "k3" 1000 "r3" (some "code3") (some "http://localhost:3000/cb")
      (some "wrong-verifier") (some "mcp-c3") (some MCP_ENDPOINT)
      { users := [{ user_id := "u3", email := "u3@x.com" }],
        codes := [{ code := "code3", user_id := "u3", client_id := "mcp-c3",
                    redirect_uri := "http://localhost:3000/cb",
                    code_challenge := base64urlNoPad (sha256 (strBytes "verifier-xyz")),
                    code_challenge_method := "S256",
                    resource_parameter := MCP_ENDPOINT, scope := "trading",
                    expires_at := 1500, used := false }],
        tokens := [] }
      { code := "code3", user_id := "u3", client_id := "mcp-c3",
        redirect_uri := "http://localhost:3000/cb",
        code_challenge := base64urlNoPad (sha256 (strBytes "verifier-xyz")),
        code_challenge_method := "S256",
        resource_parameter := MCP_ENDPOINT, scope := "trading",
        expires_at := 1500, used := false }
      (by decide) (by decide) (by decide) (by decide) (by decide)
      (by decide) (by decide) (by decide) (by decide)).2 (by decide)⟩

/-!
## C5 — refresh rotation replaces both hashes
-/

theorem countP_hash_eq_one {f : OAuthTokenRow → String} {l : List OAuthTokenRow}
    (h : pairwiseDistinct (l.map f) = true) {a : OAuthTokenRow} (ha : a ∈ l) :
    l.countP (fun x => f x == f a) = 1 := by
  induction l with
  | nil => exact absurd ha (by simp)
  | cons x xs ih =>
    simp only [List.map_cons] at h
    obtain ⟨hx, hrest⟩ := pairwiseDistinct_cons h
    rw [List.countP_cons]
    rcases List.mem_cons.mp ha with rfl | ha'
    · have hzero : xs.countP (fun y => f y == f a) = 0 := by
        refine List.countP_eq_zero.mpr ?_
        intro b hb
        simp only [beq_iff_eq]
        exact hx (f b) (List.mem_map_of_mem f hb)
      simp [hzero]
    · have hne : ¬ (f x == f a) = true := by
        simp only [beq_iff_eq]
        intro heq
        exact hx (f a) (List.mem_map_of_mem f ha') heq.symm
      simp only [if_neg hne, Nat.add_zero]
      exact ih hrest ha'

/-- C5: a successful refresh issues a new access token and a new
refresh token and rewrites the same `OAuthToken` row in place: both old
hashes disappear (lookups by the old access hash or the old refresh
hash find nothing), and exactly one row carries the fresh pair.
Uniqueness hypotheses mirror the primary-key and UNIQUE constraints,
and the freshness hypotheses say the new hashes collide with no stored
hash. -/
theorem c5_refresh_rotation (key : String) (now : Nat) (fresh : String)
    (rt cl rs : Option String) (db : DBState) (row : OAuthTokenRow)
    (ht0 : pyTruthy rt = true) (ht1 : pyTruthy cl = true) (ht2 : pyTruthy rs = true)
    (hfind : db.tokens.find? (fun t =>
        t.refresh_token_hash == sha256Hex (strBytes (rt.getD ""))
          && t.client_id == cl.getD "" && t.revoked == false) = some row)
    (hexp : ¬ row.refresh_expires_at < now)
    (hrs : rs.getD "" = row.resource_parameter)
    (hPK : pairwiseDistinct (db.tokens.map (fun t => t.token_hash)) = true)
    (hRK : pairwiseDistinct (db.tokens.map (fun t => t.refresh_token_hash)) = true)
    (hf1 : (db.tokens.all fun t => t.token_hash
      != sha256Hex (jwtBytes (create_access_token key now
           { sub := row.user_id, aud := rs.getD "", client_id := cl.getD ""
             scope := row.scope } (ACCESS_TOKEN_EXPIRE_MINUTES * 60)))) = true)
    (hf2 : (db.tokens.all fun t => t.refresh_token_hash
      != sha256Hex (strBytes fresh)) = true) :
    handle_refresh_token_grant key now fresh rt cl rs db
      = .ok ({ access_token := create_access_token key now
                 { sub := row.user_id, aud := rs.getD "", client_id := cl.getD ""
                   scope := row.scope } (ACCESS_TOKEN_EXPIRE_MINUTES * 60)
               token_type := "Bearer"
               expires_in := ACCESS_TOKEN_EXPIRE_MINUTES * 60
               refresh_token := fresh, scope := row.scope },
             rotateTokenRow db row.token_hash
               (sha256Hex (jwtBytes (create_access_token key now
                 { sub := row.user_id, aud := rs.getD "", client_id := cl.getD ""
                   scope := row.scope } (ACCESS_TOKEN_EXPIRE_MINUTES * 60))))
               (sha256Hex (strBytes fresh)) now) ∧
    (rotateTokenRow db row.token_hash
        (sha256Hex (jwtBytes (create_access_token key now
          { sub := row.user_id, aud := rs.getD "", client_id := cl.getD ""
            scope := row.scope } (ACCESS_TOKEN_EXPIRE_MINUTES * 60))))
        (sha256Hex (strBytes fresh)) now).tokens.find?
      (fun t => t.token_hash == row.token_hash) = none ∧
    (rotateTokenRow db row.token_hash
        (sha256Hex (jwtBytes (create_access_token key now
          { sub := row.user_id, aud := rs.getD "", client_id := cl.getD ""
            scope := row.scope } (ACCESS_TOKEN_EXPIRE_MINUTES * 60))))
        (sha256Hex (strBytes fresh)) now).tokens.find?
      (fun t => t.refresh_token_hash == row.refresh_token_hash) = none ∧
    (rotateTokenRow db row.token_hash
        (sha256Hex (jwtBytes (create_access_token key now
          { sub := row.user_id, aud := rs.getD "", client_id := cl.getD ""
            scope := row.scope } (ACCESS_TOKEN_EXPIRE_MINUTES * 60))))
        (sha256Hex (strBytes fresh)) now).tokens.countP
      (fun t => t.token_hash == sha256Hex (jwtBytes (create_access_token key now
          { sub := row.user_id, aud := rs.getD "", client_id := cl.getD ""
            scope := row.scope } (ACCESS_TOKEN_EXPIRE_MINUTES * 60)))
        && t.refresh_token_hash == sha256Hex (strBytes fresh)) = 1 := by
  have hrow := List.find?_some hfind
  simp only [Bool.and_eq_true, beq_iff_eq] at hrow
  obtain ⟨⟨hrowrh, hrowc⟩, hrowrev⟩ := hrow
  have hmem := List.mem_of_find?_eq_some hfind
  have hneq1 : row.token_hash ≠ sha256Hex (jwtBytes (create_access_token key now
      { sub := row.user_id, aud := rs.getD "", client_id := cl.getD ""
        scope := row.scope } (ACCESS_TOKEN_EXPIRE_MINUTES * 60))) := by
    have := List.all_eq_true.mp hf1 row hmem
    simpa using this
  have hneq2 : row.refresh_token_hash ≠ sha256Hex (strBytes fresh) := by
    have := List.all_eq_true.mp hf2 row hmem
    simpa using this
  refine ⟨?_, ?_, ?_, ?_⟩
  · unfold handle_refresh_token_grant
    rw [if_neg (by simp [ht0, ht1, ht2]), hfind]
    simp only []
    rw [if_neg hexp, if_neg (not_not_intro hrs)]
  · refine List.find?_eq_none.mpr ?_
    intro t ht
    simp only [rotateTokenRow, List.mem_map] at ht
    obtain ⟨t0, ht0m, rfl⟩ := ht
    by_cases hc : t0.token_hash = row.token_hash
    · simp only [if_pos hc, beq_iff_eq]
      exact Ne.symm hneq1
    · simp only [if_neg hc, beq_iff_eq]
      exact hc
  · refine List.find?_eq_none.mpr ?_
    intro t ht
    simp only [rotateTokenRow, List.mem_map] at ht
    obtain ⟨t0, ht0m, rfl⟩ := ht
    by_cases hc : t0.token_hash = row.token_hash
    · simp only [if_pos hc, beq_iff_eq]
      exact fun h => hneq2 h.symm
    · simp only [if_neg hc, beq_iff_eq]
      intro heq
      have ht0row : t0 = row :=
        pairwiseDistinct_inj hRK t0 ht0m row hmem heq
      exact hc (by rw [ht0row])
  · unfold rotateTokenRow
    simp only []
    rw [List.countP_map]
    refine Eq.trans (List.countP_congr ?_) (countP_hash_eq_one hPK hmem)
    intro t0 ht0m
    simp only [Function.comp]
    by_cases hc : t0.token_hash = row.token_hash
    · simp [hc]
    · simp only [if_neg hc, beq_iff_eq, Bool.and_eq_true]
      constructor
      · rintro ⟨h1, -⟩
        have := List.all_eq_true.mp hf1 t0 ht0m
        simp only [bne_iff_ne, ne_eq] at this
        exact absurd h1 this
      · intro h1
        exact absurd h1 hc

/-!
## C10 — refresh expiry slides forward on every refresh
-/

/-- C10: a successful refresh stamps the rotated row with
`expires_at = now + 15 minutes` and `refresh_expires_at = now + 30 days`
— measured from the refresh, not from original issuance — and the newly
issued refresh token is itself accepted at any `now2` up to 30 days
later, so a client refreshing at least once every 30 days keeps a valid
refresh token indefinitely. -/
theorem c10_refresh_slides (key : String) (now now2 : Nat) (fresh fresh2 : String)
    (rt cl rs : Option String) (db : DBState) (row : OAuthTokenRow)
    (ht0 : pyTruthy rt = true) (ht1 : pyTruthy cl = true) (ht2 : pyTruthy rs = true)
    (hfr : fresh ≠ "")
    (hfind : db.tokens.find? (fun t =>
        t.refresh_token_hash == sha256Hex (strBytes (rt.getD ""))
          && t.client_id == cl.getD "" && t.revoked == false) = some row)
    (hexp : ¬ row.refresh_expires_at < now)
    (hrs : rs.getD "" = row.resource_parameter)
    (hPK : pairwiseDistinct (db.tokens.map (fun t => t.token_hash)) = true)
    (hf1 : (db.tokens.all fun t => t.token_hash
      != sha256Hex (jwtBytes (create_access_token key now
           { sub := row.user_id, aud := rs.getD "", client_id := cl.getD ""
             scope := row.scope } (ACCESS_TOKEN_EXPIRE_MINUTES * 60)))) = true)
    (hf2 : (db.tokens.all fun t => t.refresh_token_hash
      != sha256Hex (strBytes fresh)) = true)
    (hnow2 : now2 ≤ now + REFRESH_TOKEN_EXPIRE_DAYS * 86400) :
    handle_refresh_token_grant key now fresh rt cl rs db
      = .ok ({ access_token := create_access_token key now
                 { sub := row.user_id, aud := rs.getD "", client_id := cl.getD ""
                   scope := row.scope } (ACCESS_TOKEN_EXPIRE_MINUTES * 60)
               token_type := "Bearer"
               expires_in := ACCESS_TOKEN_EXPIRE_MINUTES * 60
               refresh_token := fresh, scope := row.scope },
             rotateTokenRow db row.token_hash
               (sha256Hex (jwtBytes (create_access_token key now
                 { sub := row.user_id, aud := rs.getD "", client_id := cl.getD ""
                   scope := row.scope } (ACCESS_TOKEN_EXPIRE_MINUTES * 60))))
               (sha256Hex (strBytes fresh)) now) ∧
    ((rotateTokenRow db row.token_hash
        (sha256Hex (jwtBytes (create_access_token key now
          { sub := row.user_id, aud := rs.getD "", client_id := cl.getD ""
            scope := row.scope } (ACCESS_TOKEN_EXPIRE_MINUTES * 60))))
        (sha256Hex (strBytes fresh)) now).tokens.all fun t =>
      t.token_hash != sha256Hex (jwtBytes (create_access_token key now
          { sub := row.user_id, aud := rs.getD "", client_id := cl.getD ""
            scope := row.scope } (ACCESS_TOKEN_EXPIRE_MINUTES * 60)))
        || (t.expires_at == now + ACCESS_TOKEN_EXPIRE_MINUTES * 60
            && t.refresh_expires_at == now + REFRESH_TOKEN_EXPIRE_DAYS * 86400)) = true ∧
    (handle_refresh_token_grant key now2 fresh2 (some fresh) cl rs
      (rotateTokenRow db row.token_hash
        (sha256Hex (jwtBytes (create_access_token key now
          { sub := row.user_id, aud := rs.getD "", client_id := cl.getD ""
            scope := row.scope } (ACCESS_TOKEN_EXPIRE_MINUTES * 60))))
        (sha256Hex (strBytes fresh)) now)).isOk = true := by
  have hrow := List.find?_some hfind
  simp only [Bool.and_eq_true, beq_iff_eq] at hrow
  obtain ⟨⟨hrowrh, hrowc⟩, hrowrev⟩ := hrow
  have hmem := List.mem_of_find?_eq_some hfind
  refine ⟨?_, ?_, ?_⟩
  · unfold handle_refresh_token_grant
    rw [if_neg (by simp [ht0, ht1, ht2]), hfind]
    simp only []
    rw [if_neg hexp, if_neg (not_not_intro hrs)]
  · refine List.all_eq_true.mpr ?_
    intro t ht
    simp only [rotateTokenRow, List.mem_map] at ht
    obtain ⟨t0, ht0m, rfl⟩ := ht
    by_cases hc : t0.token_hash = row.token_hash
    · simp [hc]
    · have hne := List.all_eq_true.mp hf1 t0 ht0m
      simp only [bne_iff_ne, ne_eq] at hne
      simp [hc, hne]
  · have hfind2 : (rotateTokenRow db row.token_hash
        (sha256Hex (jwtBytes (create_access_token key now
          { sub := row.user_id, aud := rs.getD "", client_id := cl.getD ""
            scope := row.scope } (ACCESS_TOKEN_EXPIRE_MINUTES * 60))))
        (sha256Hex (strBytes fresh)) now).tokens.find? (fun t =>
          t.refresh_token_hash == sha256Hex (strBytes fresh)
            && t.client_id == cl.getD "" && t.revoked == false)
        = some { row with
            token_hash := sha256Hex (jwtBytes (create_access_token key now
              { sub := row.user_id, aud := rs.getD "", client_id := cl.getD ""
                scope := row.scope } (ACCESS_TOKEN_EXPIRE_MINUTES * 60)))
            refresh_token_hash := sha256Hex (strBytes fresh)
            expires_at := now + ACCESS_TOKEN_EXPIRE_MINUTES * 60
            refresh_expires_at := now + REFRESH_TOKEN_EXPIRE_DAYS * 86400 } := by
      have hpred : ∀ x ∈ (rotateTokenRow db row.token_hash
          (sha256Hex (jwtBytes (create_access_token key now
            { sub := row.user_id, aud := rs.getD "", client_id := cl.getD ""
              scope := row.scope } (ACCESS_TOKEN_EXPIRE_MINUTES * 60))))
          (sha256Hex (strBytes fresh)) now).tokens,
          (x.refresh_token_hash == sha256Hex (strBytes fresh)
            && x.client_id == cl.getD "" && x.revoked == false) = true →
          x = { row with
            token_hash := sha256Hex (jwtBytes (create_access_token key now
              { sub := row.user_id, aud := rs.getD "", client_id := cl.getD ""
                scope := row.scope } (ACCESS_TOKEN_EXPIRE_MINUTES * 60)))
            refresh_token_hash := sha256Hex (strBytes fresh)
            expires_at := now + ACCESS_TOKEN_EXPIRE_MINUTES * 60
            refresh_expires_at := now + REFRESH_TOKEN_EXPIRE_DAYS * 86400 } := by
        intro x hx hpx
        simp only [rotateTokenRow, List.mem_map] at hx
        obtain ⟨t0, ht0m, rfl⟩ := hx
        by_cases hc : t0.token_hash = row.token_hash
        · have ht0row : t0 = row :=
            pairwiseDistinct_inj hPK t0 ht0m row hmem hc
          rw [if_pos hc, ht0row]
        · rw [if_neg hc] at hpx
          simp only [Bool.and_eq_true, beq_iff_eq] at hpx
          have hne := List.all_eq_true.mp hf2 t0 ht0m
          simp only [bne_iff_ne, ne_eq] at hne
          exact absurd hpx.1.1 hne
      have hmem2 : ({ row with
            token_hash := sha256Hex (jwtBytes (create_access_token key now
              { sub := row.user_id, aud := rs.getD "", client_id := cl.getD ""
                scope := row.scope } (ACCESS_TOKEN_EXPIRE_MINUTES * 60)))
            refresh_token_hash := sha256Hex (strBytes fresh)
            expires_at := now + ACCESS_TOKEN_EXPIRE_MINUTES * 60
            refresh_expires_at := now + REFRESH_TOKEN_EXPIRE_DAYS * 86400 }
            : OAuthTokenRow) ∈ (rotateTokenRow db row.token_hash
          (sha256Hex (jwtBytes (create_access_token key now
            { sub := row.user_id, aud := rs.getD "", client_id := cl.getD ""
              scope := row.scope } (ACCESS_TOKEN_EXPIRE_MINUTES * 60))))
          (sha256Hex (strBytes fresh)) now).tokens := by
        simp only [rotateTokenRow, List.mem_map]
        exact ⟨row, hmem, by rw [if_pos rfl]⟩
      have hpredrow : (({ row with
            token_hash := sha256Hex (jwtBytes (create_access_token key now
              { sub := row.user_id, aud := rs.getD "", client_id := cl.getD ""
                scope := row.scope } (ACCESS_TOKEN_EXPIRE_MINUTES * 60)))
            refresh_token_hash := sha256Hex (strBytes fresh)
            expires_at := now + ACCESS_TOKEN_EXPIRE_MINUTES * 60
            refresh_expires_at := now + REFRESH_TOKEN_EXPIRE_DAYS * 86400 }
            : OAuthTokenRow).refresh_token_hash == sha256Hex (strBytes fresh)
          && ({ row with
            token_hash := sha256Hex (jwtBytes (create_access_token key now
              { sub := row.user_id, aud := rs.getD "", client_id := cl.getD ""
                scope := row.scope } (ACCESS_TOKEN_EXPIRE_MINUTES * 60)))
            refresh_token_hash := sha256Hex (strBytes fresh)
            expires_at := now + ACCESS_TOKEN_EXPIRE_MINUTES * 60
            refresh_expires_at := now + REFRESH_TOKEN_EXPIRE_DAYS * 86400 }
            : OAuthTokenRow).client_id == cl.getD ""
          && ({ row with
            token_hash := sha256Hex (jwtBytes (create_access_token key now
              { sub := row.user_id, aud := rs.getD "", client_id := cl.getD ""
                scope := row.scope } (ACCESS_TOKEN_EXPIRE_MINUTES * 60)))
            refresh_token_hash := sha256Hex (strBytes fresh)
            expires_at := now + ACCESS_TOKEN_EXPIRE_MINUTES * 60
            refresh_expires_at := now + REFRESH_TOKEN_EXPIRE_DAYS * 86400 }
            : OAuthTokenRow).revoked == false) = true := by
        simp [hrowc, hrowrev]
      cases hfx : (rotateTokenRow db row.token_hash
          (sha256Hex (jwtBytes (create_access_token key now
            { sub := row.user_id, aud := rs.getD "", client_id := cl.getD ""
              scope := row.scope } (ACCESS_TOKEN_EXPIRE_MINUTES * 60))))
          (sha256Hex (strBytes fresh)) now).tokens.find? (fun t =>
            t.refresh_token_hash == sha256Hex (strBytes fresh)
              && t.client_id == cl.getD "" && t.revoked == false) with
      | none => exact absurd hpredrow (List.find?_eq_none.mp hfx _ hmem2)
      | some x =>
          have hxm := List.mem_of_find?_eq_some hfx
          have hxp := List.find?_some hfx
          rw [hpred x hxm hxp]
    have hfrT : pyTruthy (some fresh) = true := by
      simp [pyTruthy, hfr]
    unfold handle_refresh_token_grant
    rw [if_neg (by simp [hfrT, ht1, ht2])]
    simp only [Option.getD_some]
    rw [hfind2]
    simp only []
    rw [if_neg (Nat.not_lt.mpr hnow2), if_neg (not_not_intro hrs)]
    rfl

/-- C5 witness: a concrete one-row rotation. -/
theorem c5_refresh_rotation_witness :
    (let row : OAuthTokenRow :=
      { token_hash := "old-access-hash", user_id := "u5", client_id := "c5",
        resource_parameter := MCP_ENDPOINT, scope := "trading",
        expires_at := 1000,
        refresh_token_hash := sha256Hex (strBytes "old-refresh"),
        refresh_expires_at := 10000, revoked := false }
     let db0 : DBState := { users := [], codes := [], tokens := [row] }
     handle_refresh_token_grant "k5" 500 "new-refresh" (some "old-refresh")
        (some "c5") (some MCP_ENDPOINT) db0
      = .ok ({ access_token := create_access_token "k5" 500
                 { sub := row.user_id, aud := (some MCP_ENDPOINT).getD ""
                   client_id := (some "c5").getD ""
                   scope := row.scope } (ACCESS_TOKEN_EXPIRE_MINUTES * 60)
               token_type := "Bearer"
               expires_in := ACCESS_TOKEN_EXPIRE_MINUTES * 60
               refresh_token := "new-refresh", scope := row.scope },
             rotateTokenRow db0 row.token_hash
               (sha256Hex (jwtBytes (create_access_token "k5" 500
                 { sub := row.user_id, aud := (some MCP_ENDPOINT).getD ""
                   client_id := (some "c5").getD ""
                   scope := row.scope } (ACCESS_TOKEN_EXPIRE_MINUTES * 60))))
               (sha256Hex (strBytes "new-refresh")) 500) ∧
     (rotateTokenRow db0 row.token_hash
        (sha256Hex (jwtBytes (create_access_token "k5" 500
          { sub := row.user_id, aud := (some MCP_ENDPOINT).getD ""
            client_id := (some "c5").getD ""
            scope := row.scope } (ACCESS_TOKEN_EXPIRE_MINUTES * 60))))
        (sha256Hex (strBytes "new-refresh")) 500).tokens.find?
      (fun t => t.token_hash == row.token_hash) = none ∧
     (rotateTokenRow db0 row.token_hash
        (sha256Hex (jwtBytes (create_access_token "k5" 500
          { sub := row.user_id, aud := (some MCP_ENDPOINT).getD ""
            client_id := (some "c5").getD ""
            scope := row.scope } (ACCESS_TOKEN_EXPIRE_MINUTES * 60))))
        (sha256Hex (strBytes "new-refresh")) 500).tokens.find?
      (fun t => t.refresh_token_hash == row.refresh_token_hash) = none ∧
     (rotateTokenRow db0 row.token_hash
        (sha256Hex (jwtBytes (create_access_token "k5" 500
          { sub := row.user_id, aud := (some MCP_ENDPOINT).getD ""
            client_id := (some "c5").getD ""
            scope := row.scope } (ACCESS_TOKEN_EXPIRE_MINUTES * 60))))
        (sha256Hex (strBytes "new-refresh")) 500).tokens.countP
      (fun t => t.token_hash == sha256Hex (jwtBytes (create_access_token "k5" 500
          { sub := row.user_id, aud := (some MCP_ENDPOINT).getD ""
            client_id := (some "c5").getD ""
            scope := row.scope } (ACCESS_TOKEN_EXPIRE_MINUTES * 60)))
        && t.refresh_token_hash == sha256Hex (strBytes "new-refresh")) = 1) :=
  c5_refresh_rotation "k5" 500 "new-refresh" (some "old-refresh") (some "c5")
    (some MCP_ENDPOINT)
    { users := [], codes := [],
      tokens := [{ token_hash := "old-access-hash", user_id := "u5", client_id := "c5",
                   resource_parameter := MCP_ENDPOINT, scope := "trading",
                   expires_at := 1000,
                   refresh_token_hash := sha256Hex (strBytes "old-refresh"),
                   refresh_expires_at := 10000, revoked := false }] }
    { token_hash := "old-access-hash", user_id := "u5", client_id := "c5",
      resource_parameter := MCP_ENDPOINT, scope := "trading",
      expires_at := 1000,
      refresh_token_hash := sha256Hex (strBytes "old-refresh"),
      refresh_expires_at := 10000, revoked := false }
    (by decide) (by decide) (by decide) (by decide) (by decide) (by decide)
    (by decide) (by decide) (by decide) (by decide)

/-- C10 witness: the rotated refresh token still works exactly 30 days
after the refresh that minted it. -/
theorem c10_refresh_slides_witness :
    (let row : OAuthTokenRow :=
      { token_hash := "old-access-hash", user_id := "u5", client_id := "c5",
        resource_parameter := MCP_ENDPOINT, scope := "trading",
        expires_at := 1000,
        refresh_token_hash := sha256Hex (strBytes "old-refresh"),
        refresh_expires_at := 10000, revoked := false }
     let db0 : DBState := { users := [], codes := [], tokens := [row] }
     handle_refresh_token_grant "k5" 500 "new-refresh" (some "old-refresh")
        (some "c5") (some MCP_ENDPOINT) db0
      = .ok ({ access_token := create_access_token "k5" 500
                 { sub := row.user_id, aud := (some MCP_ENDPOINT).getD ""
                   client_id := (some "c5").getD ""
                   scope := row.scope } (ACCESS_TOKEN_EXPIRE_MINUTES * 60)
               token_type := "Bearer"
               expires_in := ACCESS_TOKEN_EXPIRE_MINUTES * 60
               refresh_token := "new-refresh", scope := row.scope },
             rotateTokenRow db0 row.token_hash
               (sha256Hex (jwtBytes (create_access_token "k5" 500
                 { sub := row.user_id, aud := (some MCP_ENDPOINT).getD ""
                   client_id := (some "c5").getD ""
                   scope := row.scope } (ACCESS_TOKEN_EXPIRE_MINUTES * 60))))
               (sha256Hex (strBytes "new-refresh")) 500) ∧
     ((rotateTokenRow db0 row.token_hash
        (sha256Hex (jwtBytes (create_access_token "k5" 500
          { sub := row.user_id, aud := (some MCP_ENDPOINT).getD ""
            client_id := (some "c5").getD ""
            scope := row.scope } (ACCESS_TOKEN_EXPIRE_MINUTES * 60))))
        (sha256Hex (strBytes "new-refresh")) 500).tokens.all fun t =>
      t.token_hash != sha256Hex (jwtBytes (create_access_token "k5" 500
          { sub := row.user_id, aud := (some MCP_ENDPOINT).getD ""
            client_id := (some "c5").getD ""
            scope := row.scope } (ACCESS_TOKEN_EXPIRE_MINUTES * 60)))
        || (t.expires_at == 500 + ACCESS_TOKEN_EXPIRE_MINUTES * 60
            && t.refresh_expires_at == 500 + REFRESH_TOKEN_EXPIRE_DAYS * 86400)) = true ∧
     (handle_refresh_token_grant "k5" (500 + REFRESH_TOKEN_EXPIRE_DAYS * 86400)
      "r2" (some "new-refresh") (some "c5") (some MCP_ENDPOINT)
      (rotateTokenRow db0 row.token_hash
        (sha256Hex (jwtBytes (create_access_token "k5" 500
          { sub := row.user_id, aud := (some MCP_ENDPOINT).getD ""
            client_id := (some "c5").getD ""
            scope := row.scope } (ACCESS_TOKEN_EXPIRE_MINUTES * 60))))
        (sha256Hex (strBytes "new-refresh")) 500)).isOk = true) :=
  c10_refresh_slides "k5" 500 (500 + REFRESH_TOKEN_EXPIRE_DAYS * 86400)
    "new-refresh" "r2" (some "old-refresh") (some "c5") (some MCP_ENDPOINT)
    { users := [], codes := [],
      tokens := [{ token_hash := "old-access-hash", user_id := "u5", client_id := "c5",
                   resource_parameter := MCP_ENDPOINT, scope := "trading",
                   expires_at := 1000,
                   refresh_token_hash := sha256Hex (strBytes "old-refresh"),
                   refresh_expires_at := 10000, revoked := false }] }
    { token_hash := "old-access-hash", user_id := "u5", client_id := "c5",
      resource_parameter := MCP_ENDPOINT, scope := "trading",
      expires_at := 1000,
      refresh_token_hash := sha256Hex (strBytes "old-refresh"),
      refresh_expires_at := 10000, revoked := false }
    (by decide) (by decide) (by decide) (by decide) (by decide) (by decide)
    (by decide) (by decide) (by decide) (by decide) (by omega)

/-!
## C9 — credential-vault round trip and tamper rejection
-/

/-- `toBytesBE n v` has exactly `n` bytes. -/
theorem toBytesBE_length (n v : Nat) : (toBytesBE n v).length = n := by
  simp [toBytesBE]

/-- The compression function always yields the 8-word state. -/
theorem shaCompress_length (h b : List Nat) : (shaCompress h b).length = 8 := by
  unfold shaCompress
  obtain ⟨a, b', c, d, e, f, g, hh⟩ :=
    shaRounds shaRoundConsts (msgSchedule b)
      (h.getD 0 0, h.getD 1 0, h.getD 2 0, h.getD 3 0,
       h.getD 4 0, h.getD 5 0, h.getD 6 0, h.getD 7 0)
  rfl

theorem foldl_shaCompress_length (blocks : List (List Nat)) (h : List Nat)
    (hl : h.length = 8) : (blocks.foldl shaCompress h).length = 8 := by
  induction blocks generalizing h with
  | nil => simpa using hl
  | cons b bs ih => exact ih (shaCompress h b) (shaCompress_length h b)

/-- SHA-256 digests are 32 bytes. -/
theorem sha256_length (msg : Bytes) : (sha256 msg).length = 32 := by
  unfold sha256
  simp only [List.length_flatten, List.map_map]
  have h8 : ((splitChunks 16 (bytesToWords (shaPad msg)) 16 []).foldl
      shaCompress shaInitState).length = 8 :=
    foldl_shaCompress_length _ _ (by rfl)
  have hconst : (List.length ∘ toBytesBE 4) = fun _ : Nat => 4 := by
    funext v
    simp [toBytesBE_length]
  have hsum : ∀ st : List Nat, (st.map (fun _ => (4 : Nat))).sum = 4 * st.length := by
    intro st
    induction st with
    | nil => simp
    | cons a t iht => simp [iht]; omega
  rw [hconst, hsum, h8]

/-- HMAC-SHA256 tags are 32 bytes. -/
theorem hmacSHA256_length (key msg : Bytes) : (hmacSHA256 key msg).length = 32 := by
  unfold hmacSHA256
  exact sha256_length _

/-- One unfolding step of `splitChunks` on a cons cell. -/
theorem splitChunks_cons (size w : Nat) (ws acc : List Nat) (n : Nat) :
    splitChunks size (w :: ws) n acc
      = if n ≤ 1 then (w :: acc).reverse :: splitChunks size ws size []
        else splitChunks size ws (n - 1) (w :: acc) := rfl

/-- `splitChunks` peels off exactly one full chunk. -/
theorem splitChunks_step (ws : Bytes) : ∀ (b acc : List Nat), b ≠ [] →
    splitChunks 16 (b ++ ws) b.length acc
      = (acc.reverse ++ b) :: splitChunks 16 ws 16 [] := by
  intro b
  induction b with
  | nil => intro acc hne; exact absurd rfl hne
  | cons x b' ih =>
    intro acc _
    cases b' with
    | nil =>
        rw [List.cons_append, List.nil_append, List.length_cons, List.length_nil,
          splitChunks_cons, if_pos (by omega)]
        simp
    | cons y b'' =>
        have hrec := ih (x :: acc) (by simp)
        rw [List.cons_append, List.length_cons] at hrec
        rw [List.cons_append, List.cons_append, List.length_cons, List.length_cons,
          splitChunks_cons, if_neg (by omega)]
        rw [show b''.length + 1 + 1 - 1 = b''.length + 1 by omega]
        rw [hrec]
        simp

/-- A list whose length is a multiple of 16 splits into 16-element
chunks that flatten back to the list. -/
theorem chunks16_spec (k : Nat) : ∀ l : List Nat, l.length = 16 * k →
    (splitChunks 16 l 16 []).flatten = l ∧
    ∀ b ∈ splitChunks 16 l 16 [], b.length = 16 := by
  induction k with
  | zero =>
      intro l hl
      have : l = [] := List.eq_nil_of_length_eq_zero (by omega)
      subst this
      simp [splitChunks]
  | succ k ih =>
      intro l hl
      have h16 : 16 ≤ l.length := by omega
      have htk : (l.take 16).length = 16 := by
        rw [List.length_take]
        omega
      have hne : l.take 16 ≠ [] := by
        intro h
        rw [h] at htk
        simp at htk
      have hsplit : l.take 16 ++ l.drop 16 = l := List.take_append_drop 16 l
      have hstep := splitChunks_step (l.drop 16) (l.take 16) [] hne
      rw [htk, hsplit] at hstep
      simp only [List.reverse_nil, List.nil_append] at hstep
      have hdk : (l.drop 16).length = 16 * k := by
        rw [List.length_drop]
        omega
      obtain ⟨ihf, ihl⟩ := ih (l.drop 16) hdk
      constructor
      · rw [hstep, List.flatten_cons, ihf, hsplit]
      · intro b hb
        rw [hstep] at hb
        rcases List.mem_cons.mp hb with rfl | hb'
        · exact htk
        · exact ihl b hb'

/-- Splitting the flattening of 16-element chunks recovers the chunks. -/
theorem chunks16_flatten_inv (bs : List (List Nat))
    (hlen : ∀ b ∈ bs, b.length = 16) :
    splitChunks 16 bs.flatten 16 [] = bs := by
  induction bs with
  | nil => simp [splitChunks]
  | cons b rest ih =>
      have hb : b.length = 16 := hlen b (by simp)
      have hbne : b ≠ [] := by
        intro h
        rw [h] at hb
        simp at hb
      rw [List.flatten_cons]
      have hstep := splitChunks_step rest.flatten b [] hbne
      rw [hb] at hstep
      rw [hstep]
      simp only [List.reverse_nil, List.nil_append]
      rw [ih (fun x hx => hlen x (by simp [hx]))]

theorem xorBytes_length (a b : Bytes) : (xorBytes a b).length = min a.length b.length := by
  simp [xorBytes, List.length_zipWith]

/-- XOR with the same mask twice is the identity. -/
theorem xorBytes_cancel : ∀ (a b : Bytes), a.length = b.length →
    xorBytes a (xorBytes a b) = b := by
  intro a
  induction a with
  | nil =>
      intro b hb
      have : b = [] := List.eq_nil_of_length_eq_zero (by simpa using hb.symm)
      subst this
      rfl
  | cons x xs ih =>
      intro b hb
      cases b with
      | nil => simp at hb
      | cons y ys =>
          simp only [xorBytes, List.zipWith_cons_cons]
          have hx : x ^^^ (x ^^^ y) = y := by
            rw [← Nat.xor_assoc, Nat.xor_self, Nat.zero_xor]
          rw [hx]
          have := ih ys (by simpa using hb)
          simp only [xorBytes] at this
          rw [this]

/-- CBC ciphertext blocks are 16 bytes when the cipher preserves block
length. -/
theorem cbcEnc_length (bc : BlockCipher) (k : Bytes)
    (henc : ∀ key b, b.length = 16 → (bc.encB key b).length = 16) :
    ∀ (bs : List (List Nat)) (prev : Bytes), prev.length = 16 →
    (∀ b ∈ bs, b.length = 16) →
    ∀ c ∈ cbcEnc bc k prev bs, c.length = 16 := by
  intro bs
  induction bs with
  | nil => intro prev _ _ c hc; simp [cbcEnc] at hc
  | cons b rest ih =>
      intro prev hprev hall c hc
      have hb : b.length = 16 := hall b (by simp)
      have hxlen : (xorBytes prev b).length = 16 := by
        rw [xorBytes_length, hprev, hb]
        simp
      have hclen : (bc.encB k (xorBytes prev b)).length = 16 := henc k _ hxlen
      simp only [cbcEnc] at hc
      rcases List.mem_cons.mp hc with rfl | hc'
      · exact hclen
      · exact ih (bc.encB k (xorBytes prev b)) hclen
          (fun x hx => hall x (by simp [hx])) c hc'

/-- CBC decryption inverts CBC encryption, block by block. -/
theorem cbc_roundtrip (bc : BlockCipher) (k : Bytes)
    (hinv : ∀ key b, bc.decB key (bc.encB key b) = b)
    (henc : ∀ key b, b.length = 16 → (bc.encB key b).length = 16) :
    ∀ (bs : List (List Nat)) (prev : Bytes), prev.length = 16 →
    (∀ b ∈ bs, b.length = 16) →
    cbcDec bc k prev (cbcEnc bc k prev bs) = bs := by
  intro bs
  induction bs with
  | nil => intro prev _ _; rfl
  | cons b rest ih =>
      intro prev hprev hall
      have hb : b.length = 16 := hall b (by simp)
      simp only [cbcEnc, cbcDec]
      rw [hinv k (xorBytes prev b),
        xorBytes_cancel prev b (by rw [hprev, hb])]
      rw [ih (bc.encB k (xorBytes prev b))
        (henc k _ (by rw [xorBytes_length, hprev, hb]; simp))
        (fun x hx => hall x (by simp [hx]))]

/-- PKCS#7 unpadding inverts padding. -/
theorem pkcs7_unpad_pad (m : Bytes) : pkcs7unpad (pkcs7pad m) = some m := by
  have hq1 : 1 ≤ 16 - m.length % 16 := by omega
  have hq16 : 16 - m.length % 16 ≤ 16 := by omega
  unfold pkcs7pad
  set q := 16 - m.length % 16 with hqdef
  have hlast : (m ++ List.replicate q q).getLast? = some q := by
    rw [List.getLast?_append, List.getLast?_replicate, if_neg (by omega)]
    rfl
  have hlen : (m ++ List.replicate q q).length = m.length + q := by
    simp
  have hsub : (m ++ List.replicate q q).length - q = m.length := by
    rw [hlen]; omega
  have hdrop : (m ++ List.replicate q q).drop m.length = List.replicate q q :=
    List.drop_left' rfl
  have htake : (m ++ List.replicate q q).take m.length = m :=
    List.take_left' rfl
  unfold pkcs7unpad
  rw [hlast]
  simp only [hsub, hdrop, htake, hlen]
  rw [if_neg (by simp; omega)]
  rw [if_pos (by simp)]
  rw [show m.length + q - q = m.length by omega, htake]

/-- Flattening 16-byte blocks yields `16 * count` bytes. -/
theorem flatten16_length (bs : List (List Nat)) (h : ∀ b ∈ bs, b.length = 16) :
    bs.flatten.length = 16 * bs.length := by
  induction bs with
  | nil => simp
  | cons b rest ih =>
      simp only [List.flatten_cons, List.length_append, List.length_cons]
      rw [h b (by simp), ih (fun x hx => h x (by simp [hx]))]
      ring

/-- CBC encryption keeps the number of blocks. -/
theorem cbcEnc_count (bc : BlockCipher) (k : Bytes) :
    ∀ (bs : List (List Nat)) (prev : Bytes),
    (cbcEnc bc k prev bs).length = bs.length := by
  intro bs
  induction bs with
  | nil => intro prev; rfl
  | cons b rest ih =>
      intro prev
      simp only [cbcEnc, List.length_cons]
      rw [ih]

/-- Padded length is a positive multiple of 16. -/
theorem pkcs7pad_length_facts (m : Bytes) :
    (pkcs7pad m).length % 16 = 0 ∧ 16 ≤ (pkcs7pad m).length := by
  unfold pkcs7pad
  simp only [List.length_append, List.length_replicate]
  omega

/-- Decrypting a well-formed Fernet token recovers the plaintext. -/
theorem fernet_roundtrip (bc : BlockCipher) (k : FernetKey) (ts : Nat)
    (iv : Bytes) (msg : Bytes)
    (hinv : ∀ key b, bc.decB key (bc.encB key b) = b)
    (henc : ∀ key b, b.length = 16 → (bc.encB key b).length = 16)
    (hiv : iv.length = 16) :
    fernetDecryptToken bc k (fernetEncryptToken bc k ts iv msg) = .ok msg := by
  obtain ⟨hpmod, hp16⟩ := pkcs7pad_length_facts msg
  obtain ⟨kk, hkk⟩ : ∃ kk, (pkcs7pad msg).length = 16 * kk :=
    ⟨(pkcs7pad msg).length / 16, by omega⟩
  obtain ⟨hflat, hblen⟩ := chunks16_spec kk (pkcs7pad msg) hkk
  have hk1 : 1 ≤ kk := by omega
  have hbcount : (splitChunks 16 (pkcs7pad msg) 16 []).length = kk := by
    have hfl := flatten16_length (splitChunks 16 (pkcs7pad msg) 16 []) hblen
    rw [hflat, hkk] at hfl
    omega
  have hctlen : ∀ c ∈ cbcEnc bc k.encKey iv (splitChunks 16 (pkcs7pad msg) 16 []),
      c.length = 16 :=
    cbcEnc_length bc k.encKey henc (splitChunks 16 (pkcs7pad msg) 16 []) iv hiv hblen
  have hctflat : (cbcEnc bc k.encKey iv
      (splitChunks 16 (pkcs7pad msg) 16 [])).flatten.length = 16 * kk := by
    rw [flatten16_length _ hctlen, cbcEnc_count, hbcount]
  set A := toBytesBE 8 ts with hA
  set ct := (cbcEnc bc k.encKey iv (splitChunks 16 (pkcs7pad msg) 16 [])).flatten
    with hct
  set body := (0x80 :: (A ++ iv ++ ct)) with hbody
  have htok : fernetEncryptToken bc k ts iv msg
      = body ++ hmacSHA256 k.signKey body := rfl
  have htaglen : (hmacSHA256 k.signKey body).length = 32 := hmacSHA256_length _ _
  have hbodylen : body.length = 25 + ct.length := by
    rw [hbody]
    simp only [List.length_cons, List.length_append, toBytesBE_length, hA, hiv]
    omega
  have htlen : (body ++ hmacSHA256 k.signKey body).length = body.length + 32 := by
    rw [List.length_append, htaglen]
  have hctpos : 16 ≤ ct.length := by
    rw [hct, hctflat]  -- hmm hct names ct def; hctflat is about same term
    omega
  have htake : (body ++ hmacSHA256 k.signKey body).take
      ((body ++ hmacSHA256 k.signKey body).length - 32) = body := by
    rw [htlen, Nat.add_sub_cancel]
    exact List.take_left' rfl
  have hdrop : (body ++ hmacSHA256 k.signKey body).drop
      ((body ++ hmacSHA256 k.signKey body).length - 32) = hmacSHA256 k.signKey body := by
    rw [htlen, Nat.add_sub_cancel]
    exact List.drop_left' rfl
  have hbody9 : body.drop 9 = iv ++ ct := by
    rw [hbody]
    rw [show (9 : Nat) = 8 + 1 by rfl]
    rw [List.drop_succ_cons]
    rw [List.append_assoc]
    exact List.drop_left' (by rw [hA, toBytesBE_length])
  have hbody25 : body.drop 25 = ct := by
    rw [hbody]
    rw [show (25 : Nat) = 24 + 1 by rfl]
    rw [List.drop_succ_cons]
    exact List.drop_left' (by rw [List.length_append, hA, toBytesBE_length, hiv])
  have hivex : (body.drop 9).take 16 = iv := by
    rw [hbody9]
    exact List.take_left' hiv
  have hchunks : splitChunks 16 ct 16 []
      = cbcEnc bc k.encKey iv (splitChunks 16 (pkcs7pad msg) 16 []) := by
    rw [hct]
    exact chunks16_flatten_inv _ hctlen
  rw [htok]
  unfold fernetDecryptToken
  rw [if_neg (by rw [htlen, hbodylen]; omega)]
  rw [if_neg (by rw [hbody]; simp)]
  rw [htake, hdrop]
  rw [if_neg (by simp)]
  rw [hbody25, hivex]
  rw [if_neg (by omega)]
  rw [hchunks, cbc_roundtrip bc k.encKey hinv henc _ iv hiv hblen, hflat,
    pkcs7_unpad_pad]

/-- Decoding inverts encoding. -/
theorem bytesStr_strBytes (s : String) : bytesStr (strBytes s) = s := by
  unfold bytesStr strBytes
  rw [List.map_map]
  have hid : (Char.ofNat ∘ Char.toNat) = id := by
    funext c
    simp [Char.ofNat_toNat]
  rw [hid, List.map_id]

/-- C9: under a length-preserving invertible block cipher,
`decrypt_credential` inverts `encrypt_credential` on every non-empty
plaintext; and decryption fails with `InvalidToken` whenever the version
byte is not `0x80`, whenever the recomputed HMAC-SHA256 tag differs from
the presented one (the case of any tampered byte, up to MAC collisions,
which are computationally infeasible but not logically impossible), and
whenever the token is too short to parse. -/
theorem c9_vault_roundtrip_and_tamper (bc : BlockCipher) (k : FernetKey)
    (ts : Nat) (iv : Bytes) (p : String) (tokA tokB tokC : Bytes)
    (hinv : ∀ key b, bc.decB key (bc.encB key b) = b)
    (henc : ∀ key b, b.length = 16 → (bc.encB key b).length = 16)
    (hiv : iv.length = 16) (hp : p ≠ "")
    (hA : tokA.headD 0 ≠ 0x80)
    (hBmac : tokB.drop (tokB.length - 32)
      ≠ hmacSHA256 k.signKey (tokB.take (tokB.length - 32)))
    (hC : tokC.length < 57) :
    Except.bind (encrypt_credential bc k ts iv p) (decrypt_credential bc k)
      = .ok p ∧
    fernetDecryptToken bc k tokA = .error "InvalidToken" ∧
    fernetDecryptToken bc k tokB = .error "InvalidToken" ∧
    fernetDecryptToken bc k tokC = .error "InvalidToken" := by
  refine ⟨?_, ?_, ?_, ?_⟩
  · have hne : fernetEncryptToken bc k ts iv (strBytes p) ≠ [] := by
      unfold fernetEncryptToken
      simp
    unfold encrypt_credential
    rw [if_neg hp]
    show decrypt_credential bc k (fernetEncryptToken bc k ts iv (strBytes p)) = .ok p
    unfold decrypt_credential
    rw [if_neg hne, fernet_roundtrip bc k ts iv (strBytes p) hinv henc hiv]
    show Except.ok (bytesStr (strBytes p)) = Except.ok p
    rw [bytesStr_strBytes]
  · unfold fernetDecryptToken
    by_cases h57 : tokA.length < 57
    · rw [if_pos h57]
    · rw [if_neg h57, if_pos hA]
  · unfold fernetDecryptToken
    by_cases h57 : tokB.length < 57
    · rw [if_pos h57]
    · rw [if_neg h57]
      by_cases hhd : tokB.headD 0 ≠ 0x80
      · rw [if_pos hhd]
      · rw [if_neg hhd, if_pos hBmac]
  · unfold fernetDecryptToken
    rw [if_pos hC]

/-- C9 witness, instantiated with the identity block cipher. -/
theorem c9_vault_roundtrip_and_tamper_witness :
    Except.bind (encrypt_credential
        { encB := fun _ b => b, decB := fun _ b => b }
        { signKey := List.replicate 16 1, encKey := List.replicate 16 2 }
        0 (List.replicate 16 7) "secret-token")
      (decrypt_credential
        { encB := fun _ b => b, decB := fun _ b => b }
        { signKey := List.replicate 16 1, encKey := List.replicate 16 2 })
      = .ok "secret-token" ∧
    fernetDecryptToken { encB := fun _ b => b, decB := fun _ b => b }
      { signKey := List.replicate 16 1, encKey := List.replicate 16 2 }
      (List.replicate 57 0) = .error "InvalidToken" ∧
    fernetDecryptToken { encB := fun _ b => b, decB := fun _ b => b }
      { signKey := List.replicate 16 1, encKey := List.replicate 16 2 }
      (0x80 :: List.replicate 56 0) = .error "InvalidToken" ∧
    fernetDecryptToken { encB := fun _ b => b, decB := fun _ b => b }
      { signKey := List.replicate 16 1, encKey := List.replicate 16 2 }
      [1, 2, 3] = .error "InvalidToken" :=
  c9_vault_roundtrip_and_tamper
    { encB := fun _ b => b, decB := fun _ b => b }
    { signKey := List.replicate 16 1, encKey := List.replicate 16 2 }
    0 (List.replicate 16 7) "secret-token"
    (List.replicate 57 0) (0x80 :: List.replicate 56 0) [1, 2, 3]
    (fun _ _ => rfl) (fun _ _ h => h) (by decide) (by decide)
    (by decide) (by decide) (by decide)
